import Mathlib

/-!
Verification of the pm-mem memory-augmented agent library.

This file gives a shallow embedding, in Lean 4, of the parts of the pm-mem
Python code base that the verified properties talk about:

* `src/memory/entry.py`   — `MemoryEntry` and its validating property setters;
* `src/memory/bank.py`    — `MemoryBank` with `add` / `delete` / `merge` /
  `relabel` (embedded as `re_label`) / `_prune`, the LLM-based `retrieve`
  with its JSON-recovery ladder `_parse_json_response`, the score coercion
  `_validate_and_parse_score` and `_fallback_retrieval`;
* `src/memory/retrieval_result.py` — `RetrievalResult`;
* `src/llm/retry_mechanism.py` — `RetryManager.calculate_delay` / `should_retry`;
* `src/agent/remem_agent.py`  — `ReMemAgent.run_task` with its Think / Refine /
  Act phases, `_select_action`, `_apply_delta`, `_adjust_index` and
  `_add_new_memory`.

Modelling conventions
* Python machine-level effects are made explicit: a method that can raise is
  embedded either as an `Except PyErr _` value (when an exception aborts the
  whole call before any mutation is visible to the caller) or as a pair
  `state × Option PyErr` (when Python's in-place mutation leaves a partially
  updated object behind after the raise).
* Python `datetime` values are modelled by `Nat` tick counts: the code only
  ever compares them, takes `max`, and renders them to text.
* `uuid.uuid4()` and `datetime.utcnow()` are nondeterministic inputs; they are
  passed in explicitly (`fresh_id`, `now_ts`).
* Python `float` is modelled by `ℚ`; `round(x, 2)` is modelled as decimal
  rounding half-to-even (Python's documented behaviour on exact halves).
* `json.loads` and `float(str)` are Python-stdlib black boxes; they are
  parameters (`json_loads`, `float_parse`) of the functions that call them.
  Everything built on top of them (the recovery ladder, the score coercion)
  is embedded from the repository source.
* Python `str` methods used by the source (`strip`, `lower`, `startswith`,
  `split`, `find`, `rfind`, `replace`, slicing) are re-implemented over
  `List Char` so that they compute by kernel reduction.
-/

/-- Kinds of Python exceptions raised or caught by the embedded code.
`other` carries the message of an exception coming from an external
collaborator (e.g. an LLM client). -/
inductive PyErr where
  | typeError
  | valueError
  | indexError
  | keyError
  | attributeError
  | other (msg : String)
deriving DecidableEq

/-! ## Python string primitives (over `List Char`) -/

/-- Python `str.strip()` (both ends, whitespace). -/
def pyStrip (s : String) : String :=
  ⟨((s.data.dropWhile Char.isWhitespace).reverse.dropWhile Char.isWhitespace).reverse⟩

/-- Python `str.lower()` (ASCII case folding; identity on CJK text). -/
def pyLower (s : String) : String := ⟨s.data.map Char.toLower⟩

/-- Python `str.upper()`. -/
def pyUpper (s : String) : String := ⟨s.data.map Char.toUpper⟩

/-- Python `str.startswith(pat)`. -/
def pyStartsWith (s pat : String) : Bool := pat.data.isPrefixOf s.data

/-- Python `len(s)` (number of characters). -/
def pyLen (s : String) : Nat := s.data.length

/-- Python slice `s[n:]`. -/
def pySliceFrom (s : String) (n : Nat) : String := ⟨s.data.drop n⟩

/-- Python slice `s[:n]`. -/
def pySliceTo (s : String) (n : Nat) : String := ⟨s.data.take n⟩

/-- Python slice `s[a:b]`. -/
def pySlice (s : String) (a b : Nat) : String := ⟨(s.data.take b).drop a⟩

/-- Index of the first occurrence of `pat` in `hay`, if any
(`Python str.find` on char lists). -/
def charsFind (hay pat : List Char) : Option Nat :=
  match hay with
  | [] => if pat = [] then some 0 else none
  | _ :: rest =>
    if pat.isPrefixOf hay then some 0
    else (charsFind rest pat).map (· + 1)

/-- Python `s.find(pat)`: first index, or `-1`. -/
def pyFind (s pat : String) : Int :=
  match charsFind s.data pat.data with
  | some i => (i : Int)
  | none => -1

/-- Python `s.find(pat, start)`. -/
def pyFindFrom (s pat : String) (start : Nat) : Int :=
  match charsFind (s.data.drop start) pat.data with
  | some i => ((start + i : Nat) : Int)
  | none => -1

/-- Python `s.rfind(pat)`: last index, or `-1`. -/
def pyRFind (s pat : String) : Int :=
  match charsFind s.data.reverse pat.data.reverse with
  | some i => ((s.data.length - pat.data.length - i : Nat) : Int)
  | none => -1

/-- Python `"pat" in s` (substring containment). -/
def pyInStr (s pat : String) : Bool := (charsFind s.data pat.data).isSome

/-- One replacement pass for `charsReplace` (Python `str.replace`). -/
def charsReplace (pat rep : List Char) : List Char → List Char
  | [] => []
  | c :: rest =>
    if h : pat ≠ [] ∧ pat.isPrefixOf (c :: rest) then
      rep ++ charsReplace pat rep ((c :: rest).drop pat.length)
    else
      c :: charsReplace pat rep rest
termination_by l => l.length
decreasing_by
  · simp only [List.length_drop, List.length_cons]
    have hp : 0 < pat.length := List.length_pos.mpr h.1
    omega
  · simp

/-- Python `s.replace(old, new)` (all non-overlapping occurrences). -/
def pyReplace (s pat rep : String) : String := ⟨charsReplace pat.data rep.data s.data⟩

/-- Python `s.split(sep)` for a one-character separator (used with `";"`). -/
def charsSplitOn (sep : Char) : List Char → List (List Char)
  | [] => [[]]
  | c :: rest =>
    let r := charsSplitOn sep rest
    if c = sep then [] :: r
    else
      match r with
      | [] => [[c]]
      | seg :: segs => (c :: seg) :: segs

/-- Python `s.split(sep)` with a single-character separator string. -/
def pySplitOnChar (s : String) (sep : Char) : List String :=
  (charsSplitOn sep s.data).map (⟨·⟩)

/-- Python `l[-n:]`: the last at most `n` elements. -/
def pyLastN {α : Type} (n : Nat) (l : List α) : List α := l.drop (l.length - n)

/-- Python `"sep".join(parts)`. -/
def pyJoin (sep : String) (parts : List String) : String := String.intercalate sep parts

/-! ## Python's stable `sort` (Timsort is stable; insertion sort is the model) -/

/-- Insert `a` into `l`, before the first element `b` with `le a b`.
For a (total, transitive) `le` this preserves sortedness and stability. -/
def insertSorted {α : Type} (le : α → α → Bool) (a : α) : List α → List α
  | [] => [a]
  | b :: rest => if le a b then a :: b :: rest else b :: insertSorted le a rest

/-- Stable sort by `le` (models Python `list.sort(key=...)` / `sorted`). -/
def pySort {α : Type} (le : α → α → Bool) : List α → List α
  | [] => []
  | a :: rest => insertSorted le a (pySort le rest)

/-! ## `src/memory/entry.py` — MemoryEntry -/

/-- A memory entry (`MemoryEntry` in `src/memory/entry.py`).  Timestamps are
abstract `Nat` ticks (see the header).  The string-typing checks of the
property setters are enforced by the Lean types; the only value-level check
is the non-emptiness of `id` (see `MemoryEntry.id_setter`). -/
structure MemoryEntry where
  id : String
  x : String
  y : String
  feedback : String
  tag : String
  timestamp : Nat
deriving DecidableEq

/-- The `id` property setter: raises `TypeError` for non-strings (excluded by
typing here) and `ValueError` for a blank string. -/
def MemoryEntry.id_setter (value : String) : Except PyErr String :=
  if pyStrip value = "" then .error .valueError else .ok value

/-- `MemoryEntry.__init__`: `self.id = id or str(uuid.uuid4())` treats both
`None` and `""` as falsy, substituting a freshly generated UUID string
(`fresh_uuid` here); the value then passes through the `id` setter. -/
def MemoryEntry.init (x y feedback tag : String) (timestamp : Nat)
    (id : Option String) (fresh_uuid : String) : Except PyErr MemoryEntry :=
  let id_val :=
    match id with
    | none => fresh_uuid
    | some s => if s = "" then fresh_uuid else s
  (MemoryEntry.id_setter id_val).map fun i =>
    { id := i, x := x, y := y, feedback := feedback, tag := tag, timestamp := timestamp }

/-- `MemoryEntry.new` builds an entry directly from a UUID produced by
`uuid.uuid4()` (canonically non-blank, so the `id` setter check passes).
Used where the source constructs entries with default `id`/`timestamp`. -/
def MemoryEntry.new (x y feedback tag : String) (timestamp : Nat)
    (fresh_uuid : String) : MemoryEntry :=
  { id := fresh_uuid, x := x, y := y, feedback := feedback, tag := tag,
    timestamp := timestamp }

/-- `MemoryEntry.to_text()`; the `datetime.isoformat()` rendering of the
abstract timestamp is its numeral. -/
def MemoryEntry.to_text (e : MemoryEntry) : String :=
  "[Task]: " ++ e.x ++ "\n[Action]: " ++ e.y ++ "\n[Feedback]: " ++ e.feedback ++
    "\n[Tag]: " ++ e.tag ++ "\n[Timestamp]: " ++ Nat.repr e.timestamp

/-! ## `src/memory/bank.py` — MemoryBank state and operation history -/

/-- The `details` dictionary recorded with each operation history record,
specialised to the shapes the source actually constructs. -/
inductive OpDetails where
  | addOp (entry_id tag : String)
  | pruneCapacity (deleted_entry_id : String)
  | deleteOp (indices : List Nat) (deleted_count : Nat) (deleted_entries : List String)
  | mergeOp (indices : List Nat) (original_ids : List String) (merged_id merged_tag : String)
  | retagOp (index : Nat) (original_tag new_tag entry_id : String)
  | pruneBatch (original_count deleted_count remaining_count : Nat) (deleted_entries : List String)
  | clearOp (cleared_count : Nat)
  | updateOp (entry_id : String) (updated_fields : List String)
deriving DecidableEq

/-- One record of `MemoryBank.operation_history` (`_record_operation`).  The
wall-clock `datetime.now().isoformat()` stamp is metadata with no behavioural
role and is not modelled. -/
structure OpRecord where
  operation_type : String
  details : OpDetails
  success : Bool
  memory_count_before : Int
  memory_count_after : Nat
deriving DecidableEq

/-- The memory bank (`MemoryBank.__init__`). -/
structure MemoryBank where
  entries : List MemoryEntry
  max_entries : Nat
  operation_history : List OpRecord
deriving DecidableEq

/-- `MemoryBank._record_operation`: builds the record (with the
`memory_count_before` adjustment for `add`), drops the oldest record once the
history holds 1000, then appends. -/
def MemoryBank._record_operation (b : MemoryBank) (operation_type : String)
    (details : OpDetails) (success : Bool) : MemoryBank :=
  let rec0 : OpRecord :=
    { operation_type := operation_type, details := details, success := success,
      memory_count_before :=
        (b.entries.length : Int) - (if operation_type = "add" then 1 else 0),
      memory_count_after := b.entries.length }
  let hist :=
    if b.operation_history.length ≥ 1000 then b.operation_history.drop 1
    else b.operation_history
  { b with operation_history := hist ++ [rec0] }

/-- Timestamp order used by `entries.sort(key=lambda e: e.timestamp)`. -/
def tsLe (e1 e2 : MemoryEntry) : Bool := decide (e1.timestamp ≤ e2.timestamp)

/-- `MemoryBank.add`: the `isinstance` check is enforced by typing.  When the
bank already holds `max_entries` or more entries it sorts them by timestamp
(in place), pops the single oldest one (recording a `prune` history entry),
then appends the new entry and records an `add` history entry.  `pop(0)` on
an empty list (only reachable with `max_entries = 0`) raises `IndexError`. -/
def MemoryBank.add (b : MemoryBank) (entry : MemoryEntry) : MemoryBank × Option PyErr :=
  if b.entries.length ≥ b.max_entries then
    match pySort tsLe b.entries with
    | [] => ({ b with entries := [] }, some .indexError)
    | deleted :: rest =>
      let b1 := MemoryBank._record_operation { b with entries := rest }
        "prune" (.pruneCapacity deleted.id) true
      let b2 := { b1 with entries := b1.entries ++ [entry] }
      (b2._record_operation "add" (.addOp entry.id entry.tag) true, none)
  else
    let b2 := { b with entries := b.entries ++ [entry] }
    (b2._record_operation "add" (.addOp entry.id entry.tag) true, none)

/-- The validation loop of `MemoryBank.delete`: walks `indices` in order,
collecting `valid_indices` and `deleted_entries`, and raises `IndexError`
at the first index outside `[0, len)` (the `isinstance(idx, int)` check is
enforced by typing).  No mutation happens here. -/
def collectDelete (entries : List MemoryEntry) :
    List Int → Except PyErr (List Nat × List MemoryEntry)
  | [] => .ok ([], [])
  | idx :: rest =>
    if 0 ≤ idx ∧ idx < (entries.length : Int) then
      match entries[idx.toNat]? with
      | some e =>
        (collectDelete entries rest).map fun p => (idx.toNat :: p.1, e :: p.2)
      | none => .error .indexError
    else .error .indexError

/-- The mutation loop of `MemoryBank.delete`: `del self.entries[idx]` for each
index in turn; an out-of-range `del` raises `IndexError`, leaving the
deletions made so far in place. -/
def delRun (entries : List MemoryEntry) :
    List Nat → List MemoryEntry × Option PyErr
  | [] => (entries, none)
  | i :: rest =>
    if i < entries.length then delRun (entries.eraseIdx i) rest
    else (entries, some .indexError)

/-- `MemoryBank.delete`.  An empty list returns immediately (no history
record).  Otherwise every index is validated before any mutation; the valid
indices are then deleted in descending order and a single `delete` history
record is appended. -/
def MemoryBank.delete (b : MemoryBank) (indices : List Int) : MemoryBank × Option PyErr :=
  if indices = [] then (b, none)
  else
    match collectDelete b.entries indices with
    | .error e => (b, some e)
    | .ok (valid_indices, deleted_entries) =>
      if valid_indices = [] then (b, none)
      else
        match delRun b.entries (pySort (fun a b2 => decide (b2 ≤ a)) valid_indices) with
        | (ents, some e) => ({ b with entries := ents }, some e)
        | (ents, none) =>
          let b1 := { b with entries := ents }
          (b1._record_operation "delete"
            (.deleteOp valid_indices valid_indices.length (deleted_entries.map (·.id)))
            true, none)

/-- `MemoryBank.merge`.  Index-type checks are enforced by typing; range and
distinctness checks mirror the source.  The merged entry (a fresh
`MemoryEntry`, UUID passed in as `merged_id`) replaces position `idx1`; then
the source deletes `entries[idx2]` when `idx2 > idx1` but `entries[idx1+1]`
otherwise — when `idx1` is the last position that `del` raises `IndexError`,
leaving the bank with position `idx1` already overwritten. -/
def MemoryBank.merge (b : MemoryBank) (idx1 idx2 : Int) (merged_id : String) :
    MemoryBank × Option PyErr :=
  if ¬ (0 ≤ idx1 ∧ idx1 < (b.entries.length : Int) ∧
        0 ≤ idx2 ∧ idx2 < (b.entries.length : Int)) then
    (b, some .indexError)
  else if idx1 = idx2 then (b, some .valueError)
  else
    match b.entries[idx1.toNat]?, b.entries[idx2.toNat]? with
    | some e1, some e2 =>
      let merged : MemoryEntry :=
        { id := merged_id,
          x := e1.x ++ "\n---\n" ++ e2.x,
          y := e1.y ++ "\n---\n" ++ e2.y,
          feedback := e1.feedback ++ "; " ++ e2.feedback,
          tag := "merged(" ++ e1.tag ++ "," ++ e2.tag ++ ")",
          timestamp := max e1.timestamp e2.timestamp }
      let ents1 := b.entries.set idx1.toNat merged
      if idx2 > idx1 then
        let b1 := { b with entries := ents1.eraseIdx idx2.toNat }
        (b1._record_operation "merge"
          (.mergeOp [idx1.toNat, idx2.toNat] [e1.id, e2.id] merged.id merged.tag)
          true, none)
      else
        if idx1.toNat + 1 < ents1.length then
          let b1 := { b with entries := ents1.eraseIdx (idx1.toNat + 1) }
          (b1._record_operation "merge"
            (.mergeOp [idx1.toNat, idx2.toNat] [e1.id, e2.id] merged.id merged.tag)
            true, none)
        else ({ b with entries := ents1 }, some .indexError)
    | _, _ => (b, some .indexError)

/-- `MemoryBank.relabel` (embedded under the name `re_label`): validates the
index and the new tag (non-blank string), then updates the tag in place and
records a `relabel` history entry. -/
def MemoryBank.re_label (b : MemoryBank) (idx : Int) (new_tag : String) :
    MemoryBank × Option PyErr :=
  if ¬ (0 ≤ idx ∧ idx < (b.entries.length : Int)) then (b, some .indexError)
  else if pyStrip new_tag = "" then (b, some .valueError)
  else
    match b.entries[idx.toNat]? with
    | some e =>
      let b1 := { b with entries := b.entries.set idx.toNat { e with tag := new_tag } }
      (b1._record_operation "relabel"
        (.retagOp idx.toNat e.tag new_tag e.id) true, none)
    | none => (b, some .indexError)

/-- `MemoryBank._prune`: no-op unless the bank is over capacity; otherwise
sorts by timestamp, computes `delete_count = max(1, min(int(len*ratio),
len - max_entries))` and drops that many oldest entries, recording a `prune`
history entry.  `int(len * 0.2)` is modelled as the rational floor. -/
def MemoryBank._prune (b : MemoryBank) (target_ratio : ℚ := 1/5) : MemoryBank :=
  if b.entries.length ≤ b.max_entries then b
  else
    let original_count := b.entries.length
    let sorted := pySort tsLe b.entries
    let delete_count0 : Nat := (Int.floor ((b.entries.length : ℚ) * target_ratio)).toNat
    let delete_count := max 1 (min delete_count0 (b.entries.length - b.max_entries))
    let deleted := sorted.take delete_count
    let b1 := { b with entries := sorted.drop delete_count }
    b1._record_operation "prune"
      (.pruneBatch original_count delete_count b1.entries.length (deleted.map (·.id)))
      true

/-! ## `src/memory/retrieval_result.py` and JSON values -/

/-- Python/JSON values as produced by `json.loads` and consumed by the
retrieval evaluation loop. -/
inductive PyVal where
  | pyNone
  | pyInt (n : Int)
  | pyFloat (q : Rat)
  | pyStr (s : String)
  | pyList (xs : List PyVal)
  | pyDict (kvs : List (String × PyVal))

/-- `d.get(key)` / `d[key]` lookup on a (duplicate-free) Python dict. -/
def dictGet (kvs : List (String × PyVal)) (key : String) : Option PyVal :=
  (kvs.find? (fun kv => kv.1 == key)).map (·.2)

/-- Python truthiness of a value (`if not v: ...`). -/
def pyFalsy : PyVal → Bool
  | .pyNone => true
  | .pyInt n => n == 0
  | .pyFloat q => q == 0
  | .pyStr s => s == ""
  | .pyList xs => xs.isEmpty
  | .pyDict kvs => kvs.isEmpty

/-- `RetrievalResult` (`src/memory/retrieval_result.py`).  The class declares
`explanation: str` but Python does not enforce the annotation, and the bank
can pass any JSON value through; hence `PyVal`.  Note the class defines
`to_dict`, `from_dict`, `__repr__` and `__lt__` but **no** `to_text` method. -/
structure RetrievalResult where
  memory_entry : MemoryEntry
  relevance_score : Rat
  explanation : PyVal

/-- `RetrievalResult.__init__`: clamps the score into [0,1] and replaces a
falsy explanation by `""` (`explanation or ""`). -/
def RetrievalResult.init (memory_entry : MemoryEntry) (relevance_score : Rat)
    (explanation : PyVal) : RetrievalResult :=
  { memory_entry := memory_entry,
    relevance_score := max 0 (min 1 relevance_score),
    explanation := if pyFalsy explanation then .pyStr "" else explanation }

/-- An element of the `List[Union[MemoryEntry, RetrievalResult]]` returned by
`MemoryBank.retrieve`. -/
inductive RetrieveItem where
  | entry (e : MemoryEntry)
  | result (r : RetrievalResult)

/-! ## `MemoryBank._parse_json_response` — the JSON recovery ladder -/

/-- Literal `{` (written via code point to keep braces out of string
literals). -/
def lbraceStr : String := "\x7b"

/-- Literal `}`. -/
def rbraceStr : String := "\x7d"

/-- The bracket-matching scan of the `"results"`-array recovery stage:
starting at the `[` at `pos` with `depth = 0`, steps `depth` up at `[` and
down at `]`, returning the position where it returns to zero. -/
def findArrayEnd : List Char → Int → Nat → Option Nat
  | [], _, _ => none
  | c :: rest, depth, pos =>
    if c = '[' then findArrayEnd rest (depth + 1) (pos + 1)
    else if c = ']' then
      if depth - 1 = 0 then some pos else findArrayEnd rest (depth - 1) (pos + 1)
    else findArrayEnd rest depth (pos + 1)

/-- Strategy 1 of `_parse_json_response`: extract a ```` ```json ```` fenced
block, strip it, remove ellipses, and parse. -/
def parseFencedJson (json_loads : String → Option PyVal) (s : String) : Option PyVal :=
  match charsFind s.data "```json".data with
  | none => none
  | some start =>
    let e := pyFindFrom s "```" (start + 7)
    if e ≠ -1 then
      let fenced := pyStrip (pySlice s (start + 7) e.toNat)
      let cleaned := pyReplace (pyReplace fenced "…" "") "..." ""
      json_loads cleaned
    else none

/-- Strategy 3: take the substring from the first `{` to the last `}`,
scrub fences and ellipses, and parse. -/
def parseBraceSpan (json_loads : String → Option PyVal) (s : String) : Option PyVal :=
  let start_idx := pyFind s lbraceStr
  let end_idx := pyRFind s rbraceStr
  if start_idx ≠ -1 ∧ end_idx ≠ -1 ∧ end_idx > start_idx then
    let json_str := pySlice s start_idx.toNat (end_idx.toNat + 1)
    let json_str := pyReplace (pyReplace (pyReplace json_str "```" "") "…" "") "..." ""
    json_loads json_str
  else none

/-- Strategy 4: normalise single quotes to double quotes, drop trailing
commas before closers, scrub fences and ellipses, and parse. -/
def parseNormalized (json_loads : String → Option PyVal) (s : String) : Option PyVal :=
  let t := pyReplace s "\x27" "\""
  let t := pyReplace (pyReplace t (",\n" ++ rbraceStr) ("\n" ++ rbraceStr)) ",\n]" "\n]"
  let t := pyReplace (pyReplace t "```json" "") "```" ""
  let t := pyReplace (pyReplace t "…" "") "..." ""
  json_loads t

/-- Strategy 5: locate the `"results"` array by bracket matching, scrub it,
and re-wrap it as `{"results": ...}`. -/
def parseResultsArray (json_loads : String → Option PyVal) (s : String) : Option PyVal :=
  let key_idx := pyFind s "\"results\""
  if key_idx ≠ -1 then
    let arr_start := pyFindFrom s "[" key_idx.toNat
    if arr_start ≠ -1 then
      match findArrayEnd (s.data.drop arr_start.toNat) 0 arr_start.toNat with
      | some arr_end =>
        let array_str := pySlice s arr_start.toNat (arr_end + 1)
        let array_str := pyReplace (pyReplace array_str "```json" "") "```" ""
        let array_str := pyReplace (pyReplace array_str "…" "") "..." ""
        let array_str := pyReplace array_str ",]" "]"
        json_loads (lbraceStr ++ "\"results\": " ++ array_str ++ rbraceStr)
      | none => none
    else none
  else none

/-- `MemoryBank._parse_json_response` (PM-113): tries, in order, the fenced
block, a direct parse, the `{...}` span, quote/comma normalisation, and the
`"results"`-array reconstruction; each failed stage (a `json.loads`
exception, caught in the source) falls through to the next, ending in
`None`.  `json.loads` is the `json_loads` parameter. -/
def parse_json_response (json_loads : String → Option PyVal) (result_text : String) :
    Option PyVal :=
  if result_text = "" then none
  else
    match parseFencedJson json_loads result_text with
    | some d => some d
    | none =>
      match json_loads result_text with
      | some d => some d
      | none =>
        match parseBraceSpan json_loads result_text with
        | some d => some d
        | none =>
          match parseNormalized json_loads result_text with
          | some d => some d
          | none =>
            match parseResultsArray json_loads result_text with
            | some d => some d
            | none => none

/-! ## `MemoryBank._validate_and_parse_score` (PM-112) -/

/-- Decimal rounding half-to-even (the behaviour of Python `round` on exact
halves) of `100 * x`, as an integer. -/
def roundHalfEven (x : Rat) : Int :=
  let f := Int.floor x
  let frac := x - f
  if frac < 1/2 then f
  else if 1/2 < frac then f + 1
  else if f % 2 = 0 then f else f + 1

/-- Python `round(x, 2)`. -/
def pyRound2 (x : Rat) : Rat := (roundHalfEven (x * 100) : Rat) / 100

/-- The tail of `_validate_and_parse_score` once a numeric `score` has been
obtained: range-correct (negative to `0.0`, above-one to `1.0`; the residual
branch — reachable in Python only for `NaN` — returns the rounded default),
round to two decimals, and re-clamp. -/
def finishScore (score dflt : Rat) : Rat :=
  let corrected :=
    if 0 ≤ score ∧ score ≤ 1 then some score
    else if score < 0 then some 0
    else if 1 < score then some 1
    else none
  match corrected with
  | none => pyRound2 dflt
  | some s =>
    let r := pyRound2 s
    if r < 0 then 0 else if 1 < r then 1 else r

/-- The default-validation step of `_validate_and_parse_score`: a default
outside `[0, 1]` (or a non-number, excluded by typing) is replaced by
`0.5`. -/
def vps_default (default : Rat) : Rat :=
  if 0 ≤ default ∧ default ≤ 1 then default else 1/2

/-- `MemoryBank._validate_and_parse_score`: raises `ValueError` for a
non-dict item or a blank key; replaces an out-of-range default by `0.5`;
returns the (rounded) default for an absent key, `None` value, blank string,
unparseable string (`float` failure — `float_parse` is the stdlib parser) or
unsupported type; otherwise coerces, range-corrects and rounds the score.
The final `relevance_score` consistency audit in the source only logs and is
omitted. -/
def _validate_and_parse_score (float_parse : String → Option Rat) (item : PyVal)
    (score_key : String) (default : Rat := 1/2) : Except PyErr Rat :=
  match item with
  | .pyDict kvs =>
    if pyStrip score_key = "" then .error .valueError
    else
      let dflt := vps_default default
      match dictGet kvs score_key with
      | none => .ok (pyRound2 dflt)
      | some .pyNone => .ok (pyRound2 dflt)
      | some (.pyStr s) =>
        let t := pyStrip s
        if t = "" then .ok (pyRound2 dflt)
        else
          match float_parse t with
          | none => .ok (pyRound2 dflt)
          | some q => .ok (finishScore q dflt)
      | some (.pyInt n) => .ok (finishScore (n : Rat) dflt)
      | some (.pyFloat q) => .ok (finishScore q dflt)
      | some _ => .ok (pyRound2 dflt)
  | _ => .error .valueError

/-! ## `MemoryBank.retrieve` -/

/-- The borrowed LLM collaborator of `retrieve` (and the agent).  `call` is
`llm(prompt)`; `context_length_tokens` collapses the
`llm.get_model_info()`-in-`try` dance (an exception or a missing
`"context_length_tokens"` key both end in the default 64000, i.e. `none`). -/
structure LLM where
  call : String → Except PyErr String
  context_length_tokens : Option Int

/-- The `memory_text` block of the retrieval prompt:
`"\n\n".join(f"[{i}]\n{e.to_text()}")`. -/
def memoryText (entries : List MemoryEntry) : String :=
  pyJoin "\n\n" (entries.enum.map fun p => "[" ++ Nat.repr p.1 ++ "]\n" ++ p.2.to_text)

/-- The PM-111 retrieval-evaluation prompt of `MemoryBank.retrieve`, with the
`query`, entry count, index bound, `memory_text` and `k` interpolations of
the source f-string. -/
def retrieval_prompt (query : String) (entries : List MemoryEntry) (k : Nat) : String :=
  let n := Nat.repr entries.length
  let n1 := Nat.repr (entries.length - 1)
  let ks := Nat.repr k
  "\n# 记忆检索评估任务\n\n你是一个专业的记忆检索器，需要评估记忆条目与用户查询的相关性。\n\n## 用户查询\n\"" ++ query ++
  "\"\n\n## 记忆条目列表（共" ++ n ++ "个）\n" ++ memoryText entries ++
  "\n\n## 任务要求\n请为每个记忆条目（索引0到" ++ n1 ++
  "）评估其与查询的相关性，并严格输出有效的JSON对象（不要使用代码块标记，不要添加额外文字）。输出格式为一个对象，包含字段：\n- \"results\": 数组，其中每个元素包含 \"index\"、\"relevance_score\"、\"semantic_relevance\"、\"task_applicability\"、\"timeliness\"、\"explanation\"\n\n## 评估维度说明（评分范围：0.0-1.0，保留两位小数）\n\n### 1. 语义相关性 (semantic_relevance)\n评估记忆内容与查询的语义匹配程度：\n- **1.0**: 完全匹配，记忆直接回答了查询中的问题\n- **0.7-0.9**: 高度相关，记忆包含查询所需的核心信息\n- **0.4-0.6**: 中等相关，记忆包含部分相关信息\n- **0.1-0.3**: 低度相关，只有少量关联\n- **0.0**: 完全不相关\n\n### 2. 任务适用性 (task_applicability)\n评估记忆中的解决方案是否适用于当前任务：\n- **1.0**: 完全适用，可以直接应用解决方案\n- **0.7-0.9**: 高度适用，需要少量调整\n- **0.4-0.6**: 中等适用，需要中等程度的调整\n- **0.1-0.3**: 低度适用，需要大量修改\n- **0.0**: 完全不适用\n\n### 3. 时效性 (timeliness)\n评估记忆的新旧程度（越新越相关）：\n- **1.0**: 非常新（最近创建，时效性高）\n- **0.7-0.9**: 较新（近期创建）\n- **0.4-0.6**: 中等新旧（有一定时间）\n- **0.1-0.3**: 较旧（创建时间较长）\n- **0.0**: 非常旧（过时的信息）\n\n### 4. 总体相关性评分 (relevance_score)\n综合以上三个维度的加权平均：\n- **权重**: 语义相关性(50%) + 任务适用性(30%) + 时效性(20%)\n- **计算公式**: 0.5*semantic_relevance + 0.3*task_applicability + 0.2*timeliness\n- **注意**: 计算结果保留两位小数\n\n## 输出规范\n\n### 必须遵守的规则\n1. **JSON格式**: 必须输出有效的JSON对象，包含\"results\"数组\n2. **只输出前" ++ ks ++ "个**: 仅返回与查询最相关的前" ++ ks ++
  "个条目，按relevance_score降序\n3. **评分范围**: 所有评分必须在0.0-1.0范围内，保留两位小数\n4. **解释质量**: 解释应该简洁明了（1-2句话），说明为什么相关或不相关\n5. **索引对应**: 每个条目的index必须与记忆条目列表中的索引一致\n\n### 错误预防提示\n1. **不要排序**: 保持原始顺序，我们会按relevance_score排序\n2. **不要省略**: 即使完全不相关，也要包含所有条目（评分可以为0.0）\n3. **不要添加**: 输出中不要包含额外的文本、注释或说明\n4. **格式正确**: 确保JSON格式正确，没有语法错误\n5. **数值类型**: 所有评分必须是数字，不是字符串\n\n## 示例说明\n\n### 高度相关的记忆（示例项说明）\n包含较高的 \"semantic_relevance\" 与 \"task_applicability\"，并且 \"timeliness\" 较高\n\n### 中等相关的记忆（示例项说明）\n相关信息部分匹配，需要适当调整，时效性一般\n\n### 低度相关的记忆（示例项说明）\n仅少量关联信息，难以直接应用，可能较旧\n\n### 完全不相关的记忆（示例项说明）\n与查询主题不相关，无法应用\n\n## 开始评估\n\n请严格按照上述要求，为记忆条目进行评估，并输出完整的JSON结果。\n记住：只需返回前" ++ ks ++ "个条目，不要添加额外文本。\n"

/-- The context-budget trimming of the prompt: `char_budget` characters,
keeping at most 40% for the part before the `## 记忆条目列表` marker.
`int((context_len - 2048) / 0.5)` and `int(char_budget * 0.4)` are exact
integer computations here (the float error of CPython's `0.4` is ignored). -/
def trim_prompt (prompt : String) (char_budget : Int) : String :=
  match charsFind prompt.data "## 记忆条目列表".data with
  | some i =>
    let head := pySliceTo prompt i
    let body := pySliceFrom prompt i
    let keep_head := min (pyLen head) ((char_budget * 2 / 5).toNat)
    let keep_body := (char_budget - keep_head).toNat
    pySliceTo head keep_head ++ "\n...\n" ++ pySliceTo body keep_body
  | none => pySliceTo prompt char_budget.toNat

/-- `MemoryBank._fallback_retrieval`: the first `min k len` entries in
storage order, each wrapped (when explanations are requested) with the fixed
score `0.5` and the fixed explanation `"回退检索：按时间顺序返回"`. -/
def MemoryBank._fallback_retrieval (b : MemoryBank) (query : String) (k : Nat)
    (include_explanations : Bool) : List RetrieveItem :=
  let k1 := min k b.entries.length
  (b.entries.take k1).map fun e =>
    if include_explanations then
      .result (RetrievalResult.init e (1/2) (.pyStr "回退检索：按时间顺序返回"))
    else .entry e

/-- Python `key in v` for the containment tests of the evaluation loop
(`"results" in result_data`, `"index" not in item`): dict-key membership,
list membership (a string key only equals string elements), substring test
on strings; `TypeError` otherwise. -/
def pyContains (v : PyVal) (key : String) : Except PyErr Bool :=
  match v with
  | .pyDict kvs => .ok (kvs.any (fun kv => kv.1 == key))
  | .pyList xs => .ok (xs.any fun x => match x with | .pyStr s => s == key | _ => false)
  | .pyStr s => .ok (pyInStr s key)
  | _ => .error .typeError

/-- Python `v[key]` for a string key: dict lookup (`KeyError` when absent),
`TypeError` on any other value. -/
def pySubscriptKey (v : PyVal) (key : String) : Except PyErr PyVal :=
  match v with
  | .pyDict kvs =>
    match dictGet kvs key with
    | some x => .ok x
    | none => .error .keyError
  | _ => .error .typeError

/-- Python `for item in v`: list elements, characters of a string (as 1-char
strings), keys of a dict; `TypeError` otherwise. -/
def pyIter : PyVal → Except PyErr (List PyVal)
  | .pyList xs => .ok xs
  | .pyStr s => .ok (s.data.map fun c => .pyStr ⟨[c]⟩)
  | .pyDict kvs => .ok (kvs.map fun kv => .pyStr kv.1)
  | _ => .error .typeError

/-- Python `0 <= idx < n` where `idx` came out of JSON: comparison against a
non-number raises `TypeError`. -/
def pyRangeCheck (v : PyVal) (n : Nat) : Except PyErr Bool :=
  match v with
  | .pyInt m => .ok (decide (0 ≤ m ∧ m < (n : Int)))
  | .pyFloat q => .ok (decide (0 ≤ q ∧ q < (n : Rat)))
  | _ => .error .typeError

/-- Python `self.entries[idx]` with a JSON-originated index: only an `int`
subscripts a list (`TypeError` otherwise); the evaluation loop has already
range-checked it, so the wrap-around of negative indices is not modelled. -/
def pyIndexEntries (l : List MemoryEntry) (v : PyVal) : Except PyErr MemoryEntry :=
  match v with
  | .pyInt m =>
    match l[m.toNat]? with
    | some e => if 0 ≤ m then .ok e else .error .indexError
    | none => .error .indexError
  | _ => .error .typeError

/-- One parsed evaluation record of the retrieval loop. -/
structure EvalItem where
  index : PyVal
  score : Rat
  semantic_relevance : Rat
  task_applicability : Rat
  timeliness : Rat
  explanation : PyVal

/-- The item loop of `MemoryBank.retrieve`: skips items without `index` or
`relevance_score`, parses the four scores (a `ValueError` from the score
parser is caught and skips the item; it cannot arise here since items that
reach the parser are dicts), reads the explanation, and keeps records whose
index is in range.  Any other exception propagates to the enclosing `try`. -/
def buildEvals (float_parse : String → Option Rat) (entries_len : Nat) :
    List PyVal → Except PyErr (List EvalItem)
  | [] => .ok []
  | item :: rest => do
    let has_idx ← pyContains item "index"
    if ¬ has_idx then buildEvals float_parse entries_len rest
    else do
      let has_score ← pyContains item "relevance_score"
      if ¬ has_score then buildEvals float_parse entries_len rest
      else do
        let idxv ← pySubscriptKey item "index"
        match (do
          let s ← _validate_and_parse_score float_parse item "relevance_score" (1/2)
          let sr ← _validate_and_parse_score float_parse item "semantic_relevance" 0
          let ta ← _validate_and_parse_score float_parse item "task_applicability" 0
          let tl ← _validate_and_parse_score float_parse item "timeliness" 0
          pure (s, sr, ta, tl) : Except PyErr (Rat × Rat × Rat × Rat)) with
        | .error .valueError => buildEvals float_parse entries_len rest
        | .error e => .error e
        | .ok (s, sr, ta, tl) =>
          let explanation :=
            match item with
            | .pyDict kvs => (dictGet kvs "explanation").getD (.pyStr "")
            | _ => .pyStr ""
          let in_range ← pyRangeCheck idxv entries_len
          if in_range then
            (buildEvals float_parse entries_len rest).map
              (fun es => ⟨idxv, s, sr, ta, tl, explanation⟩ :: es)
          else buildEvals float_parse entries_len rest

/-- The result-construction loop over the top-`k` evaluations. -/
def buildResults (entries : List MemoryEntry) (include_explanations : Bool) :
    List EvalItem → Except PyErr (List RetrieveItem)
  | [] => .ok []
  | ev :: rest => do
    let e ← pyIndexEntries entries ev.index
    let item :=
      if include_explanations then
        RetrieveItem.result (RetrievalResult.init e ev.score ev.explanation)
      else .entry e
    (buildResults entries include_explanations rest).map (fun rs => item :: rs)

/-- The prompt actually passed to the LLM by `retrieve`: the full evaluation
prompt, trimmed when it exceeds the model's character budget. -/
def retrieve_prompt_trimmed (llm : LLM) (entries : List MemoryEntry)
    (query : String) (k : Nat) : String :=
  let prompt0 := retrieval_prompt query entries k
  let context_len : Int := llm.context_length_tokens.getD 64000
  let char_budget : Int := 2 * (context_len - 2048)
  if (pyLen prompt0 : Int) > char_budget then trim_prompt prompt0 char_budget
  else prompt0

/-- The response-processing part of `retrieve`'s `try` block: run the JSON
recovery ladder (falling back on `None` or a missing `"results"` field),
evaluate the items, sort by score descending (stably) and keep the top
`k`. -/
def MemoryBank.retrieveEval (b : MemoryBank) (json_loads : String → Option PyVal)
    (float_parse : String → Option Rat) (result_text : String) (query : String)
    (k : Nat) (include_explanations : Bool) : Except PyErr (List RetrieveItem) :=
  match parse_json_response json_loads result_text with
  | none => .ok (b._fallback_retrieval query k include_explanations)
  | some result_data => do
    let has ← pyContains result_data "results"
    if ¬ has then .ok (b._fallback_retrieval query k include_explanations)
    else do
      let results_val ← pySubscriptKey result_data "results"
      let items ← pyIter results_val
      let evaluations ← buildEvals float_parse b.entries.length items
      let sorted := pySort (fun a b2 => decide (b2.score ≤ a.score)) evaluations
      let top_k := sorted.take k
      buildResults b.entries include_explanations top_k

/-- The `try` block of `MemoryBank.retrieve`: build and trim the prompt,
call the LLM (an exception propagates to `retrieve`'s handler), then process
the response. -/
def MemoryBank.retrieveTry (b : MemoryBank) (json_loads : String → Option PyVal)
    (float_parse : String → Option Rat) (llm : LLM) (query : String) (k : Nat)
    (include_explanations : Bool) : Except PyErr (List RetrieveItem) :=
  match llm.call (retrieve_prompt_trimmed llm b.entries query k) with
  | .error e => .error e
  | .ok result_text =>
    b.retrieveEval json_loads float_parse result_text query k include_explanations

/-- `MemoryBank.retrieve`: empty bank or `k <= 0` short-circuit to `[]`
without an LLM call; `k` is clamped to the bank size; any exception escaping
the `try` block is caught and routed to `_fallback_retrieval`. -/
def MemoryBank.retrieve (b : MemoryBank) (json_loads : String → Option PyVal)
    (float_parse : String → Option Rat) (llm : LLM) (query : String) (k : Int)
    (include_explanations : Bool := true) : List RetrieveItem :=
  if b.entries.isEmpty then []
  else if k ≤ 0 then []
  else
    let k1 : Nat := min k.toNat b.entries.length
    match b.retrieveTry json_loads float_parse llm query k1 include_explanations with
    | .ok rs => rs
    | .error _ => b._fallback_retrieval query k1 include_explanations

/-! ## `src/llm/retry_mechanism.py` — RetryManager -/

/-- `RetryStrategy` enumeration. -/
inductive RetryStrategy where
  | exponential_backoff
  | fixed_interval
  | random_backoff
  | adaptive
deriving DecidableEq

/-- `RetryConfig` with its defaults.  `retry_on_exceptions` is the
`isinstance(exception, config.retry_on_exceptions)` test, abstracted over
exception kind names (default `(Exception,)`: everything is eligible). -/
structure RetryConfig where
  max_retries : Int := 3
  base_delay : Rat := 1
  max_delay : Rat := 30
  jitter : Bool := true
  strategy : RetryStrategy := .exponential_backoff
  retry_on_exceptions : String → Bool := fun _ => true

/-- The `RetryManager` with the statistics consulted by the adaptive
strategy. -/
structure RetryManager where
  config : RetryConfig
  total_attempts : Nat := 0
  successful_attempts : Nat := 0

/-- `RetryManager._get_success_rate`. -/
def RetryManager._get_success_rate (m : RetryManager) : Rat :=
  if m.total_attempts = 0 then 1
  else (m.successful_attempts : Rat) / (m.total_attempts : Rat)

/-- `RetryManager.calculate_delay`.  The random draws are explicit inputs:
`rand_draw` is `random.uniform(base, min(base*3, max))` of the random
strategy; `jitter_factor` is the `random.uniform(0.8, 1.2)` jitter
multiplier, applied only when `config.jitter` is set. -/
def RetryManager.calculate_delay (m : RetryManager) (attempt : Int)
    (rand_draw jitter_factor : Rat) : Rat :=
  if attempt ≤ 0 then 0
  else
    let base_delay := m.config.base_delay
    let max_delay := m.config.max_delay
    let delay :=
      match m.config.strategy with
      | .exponential_backoff => min (base_delay * 2 ^ (attempt - 1).toNat) max_delay
      | .fixed_interval => base_delay
      | .random_backoff => rand_draw
      | .adaptive =>
        if m._get_success_rate < 1/2 then min (base_delay * 4) max_delay
        else base_delay
    let delay := if m.config.jitter then delay * jitter_factor else delay
    min delay max_delay

/-- A Python exception as seen by `should_retry`: its kind (for the
`isinstance` eligibility test) and its `status_code` attribute (`none` for
absent-or-`None`, matching `hasattr` + the truthiness guard). -/
structure PyExc where
  kind : String
  status_code : Option Int

/-- `RetryManager.should_retry`: refuses once `attempt >= max_retries`,
refuses ineligible exception kinds, and refuses any truthy HTTP status code
in [400, 500). -/
def RetryManager.should_retry (m : RetryManager) (e : PyExc) (attempt : Int) : Bool :=
  if attempt ≥ m.config.max_retries then false
  else if ¬ m.config.retry_on_exceptions e.kind then false
  else
    match e.status_code with
    | some c => if c ≠ 0 ∧ 400 ≤ c ∧ c < 500 then false else true
    | none => true

/-! ## `src/agent/remem_agent.py` — ReMemAgent -/

/-- The `delta` dictionary produced by `RefineEditor.parse_command`
(`{"delete": [...], "add": [...], "merge": [...], "relabel": [...]}`;
the last key is embedded as `re_label`). -/
structure RefineDelta where
  delete : List Int
  add : List String
  merge : List (Int × Int)
  re_label : List (Int × String)

/-- The external, nondeterministic collaborators of a `run_task` call:
the stdlib parsers, the regex-based `RefineEditor.parse_command` (whose
output shape is the `delta` dict), the `uuid.uuid4()` stream (indexed by
draw number) and the `datetime.utcnow()` clock. -/
structure PyEnv where
  json_loads : String → Option PyVal
  float_parse : String → Option Rat
  parse_command : String → RefineDelta
  fresh_id : Nat → String
  now_ts : Nat

/-- The empty delta, returned by every `_refine` fallback path. -/
def emptyDelta : RefineDelta := ⟨[], [], [], []⟩

/-- Python `str(e)` as used in `f"Refine异常: {str(e)}"`: the message for
external exceptions; typed bank/entry errors render as their class name
(their concrete messages play no behavioural role). -/
def pyErrMsg : PyErr → String
  | .typeError => "TypeError"
  | .valueError => "ValueError"
  | .indexError => "IndexError"
  | .keyError => "KeyError"
  | .attributeError => "AttributeError"
  | .other m => m

/-- The result record returned by `ReMemAgent.run_task`. -/
structure RunResult where
  action : String
  traces : List String
  memory_size : Nat
  iterations : Nat
  retrieved_count : Nat
  status : String
deriving DecidableEq

/-- The agent state (`ReMemAgent.__init__`; defaults `max_iterations=8`,
`retrieval_k=5`; persistence holds no behavioural state here). -/
structure ReMemAgent where
  llm : LLM
  M : MemoryBank
  max_iterations : Nat := 8
  retrieval_k : Int := 5

/-- The `_select_action` prompt. -/
def select_action_prompt (task_input retrieved_text : String) (traces : List String) : String :=
  "\n任务: " ++ task_input ++ "\n\n相关记忆:\n" ++ retrieved_text ++
  "\n\n历史推理轨迹:\n" ++ (if traces.isEmpty then "无" else pyJoin "\n" traces) ++
  "\n\n请选择下一步动作：Think / Refine / Act\n只需输出动作名称。\n"

/-- `ReMemAgent._select_action`: lower-cases and strips the LLM response,
accepts only `think`/`refine`/`act`, and coerces anything else — including
an LLM exception — to `"act"`. -/
def ReMemAgent._select_action (llm : LLM) (task_input retrieved_text : String)
    (traces : List String) : String :=
  match llm.call (select_action_prompt task_input retrieved_text traces) with
  | .error _ => "act"
  | .ok resp =>
    let action := pyLower (pyStrip resp)
    if action == "think" || action == "refine" || action == "act" then action
    else "act"

/-- The `_think` prompt. -/
def think_prompt (task_input retrieved_text : String) (traces : List String) : String :=
  "\nThink: 请进行内部推理。\n\n任务: " ++ task_input ++ "\n\n相关经验:\n" ++
  (if retrieved_text = "" then "无相关经验" else retrieved_text) ++
  "\n\n历史推理:\n" ++ (if traces.isEmpty then "无历史推理" else pyJoin "\n" (pyLastN 3 traces)) ++
  "\n\n请以 \"Think:\" 开头输出推理过程。\n推理应该：\n1. 分析任务需求\n2. 结合相关经验\n3. 考虑历史推理\n4. 提出下一步思路\n\n请确保推理内容具体、有逻辑。\n"

/-- `ReMemAgent._think`: guards on a blank task, calls the LLM (a fixed text
on exception or empty output), forces the `"Think:"` prefix and pads
too-short results.  The `traces`-is-a-list guard is enforced by typing; the
word-count quality check only logs. -/
def ReMemAgent._think (llm : LLM) (task_input retrieved_text : String)
    (traces : List String) : String :=
  if task_input = "" then "Think: 无效的任务输入"
  else
    match llm.call (think_prompt task_input retrieved_text traces) with
    | .error _ => "Think: 推理过程中出现错误"
    | .ok resp =>
      let result := pyStrip resp
      if result = "" then "Think: 推理结果为空"
      else
        let result := if pyStartsWith result "Think:" then result else "Think: " ++ result
        if pyLen result < 20 then result ++ " (推理内容需要更详细)" else result

/-- The `_act` prompt. -/
def act_prompt (task_input retrieved_text : String) (traces : List String) : String :=
  "\nAct: 请给出最终答案或动作。\n\n当前任务:\n" ++ task_input ++
  "\n\n相关经验（来自记忆库）:\n" ++
  (if retrieved_text = "" then "无相关经验" else retrieved_text) ++
  "\n\n推理轨迹（历史思考过程）:\n" ++
  (if traces.isEmpty then "无推理轨迹" else pyJoin "\n" (pyLastN 5 traces)) ++
  "\n\n请以 \"Act:\" 开头输出最终答案或动作。\n你的回答应该：\n\n1. **直接回应任务需求** - 明确解决任务中提出的问题\n2. **基于相关经验** - 参考上面的相关经验（如果存在）\n3. **考虑推理轨迹** - 结合上面的思考过程\n4. **清晰具体** - 提供明确的答案或可执行的动作\n5. **完整自包含** - 答案应该是完整的，不需要额外解释\n\n如果是复杂任务，可以分步骤回答。\n如果是决策任务，请给出明确的决定和理由。\n如果是创作任务，请提供具体的内容。\n\n示例格式：\nAct: [你的答案或动作]\n"

/-- `ReMemAgent._act`: guards on a blank task, calls the LLM (fixed text on
exception or empty output), forces the `"Act:"` prefix and pads a too-short
answer body.  The keyword-overlap relevance check only logs. -/
def ReMemAgent._act (llm : LLM) (task_input retrieved_text : String)
    (traces : List String) : String :=
  if task_input = "" then "Act: 无效的任务输入"
  else
    match llm.call (act_prompt task_input retrieved_text traces) with
    | .error _ => "Act: 执行动作时出现错误"
    | .ok resp =>
      let result := pyStrip resp
      if result = "" then "Act: 执行结果为空"
      else
        let result := if pyStartsWith result "Act:" then result else "Act: " ++ result
        let act_content := pyStrip (pySliceFrom result 4)
        if pyLen act_content < 10 then result ++ " (需要更具体的回答)" else result

/-- The `_refine` prompt (the doubled braces of the f-string render as
literal braces). -/
def refine_prompt (M : MemoryBank) (task_input : String) (traces : List String) : String :=
  let memory_list :=
    pyJoin "\n" (M.entries.enum.map fun p => Nat.repr p.1 ++ ". " ++ p.2.to_text)
  "\nRefine: 请对记忆库进行编辑操作。\n\n当前记忆库 (" ++ Nat.repr M.entries.length ++
  " 条记忆):\n" ++ memory_list ++ "\n\n当前任务:\n" ++ task_input ++
  "\n\n历史推理轨迹:\n" ++ (if traces.isEmpty then "无历史推理" else pyJoin "\n" (pyLastN 3 traces)) ++
  "\n\n可用的编辑操作:\n1. DELETE <index1>,<index2>,... - 删除指定索引的记忆\n2. ADD" ++
  lbraceStr ++ "<new_experience>" ++ rbraceStr ++
  " - 添加新记忆（用花括号包裹内容）\n3. MERGE <index1>&<index2> - 合并两个记忆\n4. RELABEL <index> <new_tag> - 重新标记记忆\n\n编辑原则:\n- 删除冗余或无关的记忆\n- 添加重要的新经验\n- 合并相似或重复的记忆\n- 重新标记不准确的标签\n\n请输出Refine命令，例如：\nDELETE 1,3; ADD" ++
  lbraceStr ++ "用户喜欢简洁的界面设计" ++ rbraceStr ++
  "; MERGE 0&2; RELABEL 4 ui-preference\n\n请确保命令格式正确，索引在有效范围内。\n"

/-- `ReMemAgent._validate_refine_command`: splits on `;`, drops blank
segments, requires at least one segment and a known operation head on each. -/
def ReMemAgent._validate_refine_command (cmd : String) : Bool :=
  if cmd = "" then false
  else
    let operations := (((pySplitOnChar cmd ';').map pyStrip).filter (· ≠ ""))
    if operations.isEmpty then false
    else operations.all fun op =>
      op ≠ "" &&
      (pyStartsWith (pyUpper op) "DELETE " ||
       pyStartsWith (pyUpper op) ("ADD" ++ lbraceStr) ||
       pyStartsWith (pyUpper op) "MERGE " ||
       pyStartsWith (pyUpper op) "RELABEL ")

/-- `ReMemAgent._validate_refine_delta` checks that the parsed delta is a
dict with the four list-valued keys — enforced here by `RefineDelta`'s type,
so the embedded check is identically true. -/
def ReMemAgent._validate_refine_delta (_delta : RefineDelta) : Bool := true

/-- `ReMemAgent._validate_indices`: every delete/merge/relabel index within
`[0, len-1]`, and no merge pair of equal indices. -/
def ReMemAgent._validate_indices (delta : RefineDelta) (M : MemoryBank) : Bool :=
  let max_index : Int := (M.entries.length : Int) - 1
  delta.delete.all (fun idx => decide (0 ≤ idx ∧ idx ≤ max_index)) &&
  delta.merge.all (fun p =>
    decide (0 ≤ p.1 ∧ p.1 ≤ max_index ∧ 0 ≤ p.2 ∧ p.2 ≤ max_index) && (p.1 != p.2)) &&
  delta.re_label.all (fun p => decide (0 ≤ p.1 ∧ p.1 ≤ max_index))

/-- `ReMemAgent._refine`: guards (blank task, empty bank), LLM call
(exception → `"Refine异常: ..."`), blank command, format validation,
`RefineEditor.parse_command` (the `parse_command` collaborator), delta-shape
validation and index validation; returns the parsed delta and the raw
command, or an empty delta with a diagnostic trace string. -/
def ReMemAgent._refine (parse_command : String → RefineDelta) (llm : LLM)
    (M : MemoryBank) (task_input : String) (traces : List String) :
    RefineDelta × String :=
  if task_input = "" then (emptyDelta, "Refine: 无效输入")
  else if M.entries.length = 0 then (emptyDelta, "Refine: 记忆库为空")
  else
    match llm.call (refine_prompt M task_input traces) with
    | .error e => (emptyDelta, "Refine异常: " ++ pyErrMsg e)
    | .ok resp =>
      let cmd := pyStrip resp
      if cmd = "" then (emptyDelta, "Refine: 空命令")
      else if ¬ ReMemAgent._validate_refine_command cmd then
        (emptyDelta, "Refine: 格式无效: " ++ cmd)
      else
        let delta := parse_command cmd
        if ¬ ReMemAgent._validate_refine_delta delta then
          (emptyDelta, "Refine: 解析失败: " ++ cmd)
        else if ¬ ReMemAgent._validate_indices delta M then
          (emptyDelta, "Refine: 索引无效: " ++ cmd)
        else (delta, cmd)

/-- `ReMemAgent._adjust_index`: `None` for a deleted index, else shift down
by the number of deleted indices below it. -/
def ReMemAgent._adjust_index (idx : Int) (deleted_indices : List Int) : Option Int :=
  if deleted_indices.contains idx then none
  else some (idx - ((deleted_indices.filter (· < idx)).length : Int))

/-- The ADD loop of `_apply_delta`: each non-blank text becomes a fresh
`refine`-tagged entry; an exception from `add` aborts the loop (it is caught
by `_apply_delta`'s outer `try`). -/
def applyAdds (env : PyEnv) (uc : Nat) (M : MemoryBank) :
    List String → MemoryBank × Nat × Option PyErr
  | [] => (M, uc, none)
  | text :: rest =>
    if text ≠ "" then
      let entry := MemoryEntry.new "refine-added" text "refine-added" "refine"
        env.now_ts (env.fresh_id uc)
      match M.add entry with
      | (m1, none) => applyAdds env (uc + 1) m1 rest
      | (m1, some e) => (m1, uc + 1, some e)
    else applyAdds env uc M rest

/-- The MERGE loop of `_apply_delta`: indices are adjusted for prior
deletions; each merge runs under its own `try`, so a failure (including the
corrupting `IndexError` of `MemoryBank.merge`) leaves its partial state and
the loop continues. -/
def applyMerges (env : PyEnv) (uc : Nat) (M : MemoryBank) (deleted : List Int) :
    List (Int × Int) → MemoryBank × Nat
  | [] => (M, uc)
  | (i1, i2) :: rest =>
    match ReMemAgent._adjust_index i1 deleted, ReMemAgent._adjust_index i2 deleted with
    | some a1, some a2 =>
      let m1 := (M.merge a1 a2 (env.fresh_id uc)).1
      applyMerges env (uc + 1) m1 deleted rest
    | _, _ => applyMerges env uc M deleted rest

/-- The RELABEL loop of `_apply_delta` (per-item `try`, failures skipped). -/
def applyRetags (M : MemoryBank) (deleted : List Int) :
    List (Int × String) → MemoryBank
  | [] => M
  | (i, tag) :: rest =>
    match ReMemAgent._adjust_index i deleted with
    | some a => applyRetags (M.re_label a tag).1 deleted rest
    | none => applyRetags M deleted rest

/-- `ReMemAgent._apply_delta`: deletes (descending), adds, merges and
re-tags, in that order; the outer `try ... except: log` means an exception
in the delete or add group abandons the remaining groups but never
propagates. -/
def ReMemAgent._apply_delta (env : PyEnv) (uc : Nat) (M : MemoryBank)
    (delta : RefineDelta) : MemoryBank × Nat :=
  let step1 :=
    if delta.delete ≠ [] then
      M.delete (pySort (fun a b2 => decide (b2 ≤ a)) delta.delete)
    else (M, none)
  match step1 with
  | (m1, some _) => (m1, uc)
  | (m1, none) =>
    let step2 := if delta.add ≠ [] then applyAdds env uc m1 delta.add else (m1, uc, none)
    match step2 with
    | (m2, uc2, some _) => (m2, uc2)
    | (m2, uc2, none) =>
      let (m3, uc3) :=
        if delta.merge ≠ [] then applyMerges env uc2 m2 delta.delete delta.merge
        else (m2, uc2)
      let m4 :=
        if delta.re_label ≠ [] then applyRetags m3 delta.delete delta.re_label
        else m3
      (m4, uc3)

/-- `ReMemAgent._get_feedback`: the simulated environment feedback. -/
def ReMemAgent._get_feedback (_action_result : String) : String := "success"

/-- `ReMemAgent._add_new_memory`: strips the `"Act:"` prefix, appends a
`task`-tagged entry, and explicitly `_prune`s when the bank is at or above
capacity.  An exception from `add` would propagate out of `run_task`. -/
def ReMemAgent._add_new_memory (env : PyEnv) (uc : Nat) (M : MemoryBank)
    (task_input action_result feedback : String) :
    (MemoryBank × Nat) × Option PyErr :=
  let action_content :=
    if pyStartsWith action_result "Act:" then pyStrip (pySliceFrom action_result 4)
    else action_result
  let entry := MemoryEntry.new task_input action_content feedback "task"
    env.now_ts (env.fresh_id uc)
  match M.add entry with
  | (m1, some e) => ((m1, uc + 1), some e)
  | (m1, none) =>
    let m2 := if m1.entries.length ≥ m1.max_entries then m1._prune else m1
    ((m2, uc + 1), none)

/-- `retrieved_text = "\n".join([e.to_text() for e in retrieved_memories])`
in `run_task`: the comprehension calls `to_text()` on each returned item;
`RetrievalResult` defines no such method, so a `result` item raises
`AttributeError` (uncaught in `run_task`). -/
def retrievedToText : List RetrieveItem → Except PyErr (List String)
  | [] => .ok []
  | .entry e :: rest => (retrievedToText rest).map (fun ts => e.to_text :: ts)
  | .result _ :: _ => .error .attributeError

/-- The `for iteration in range(max_iterations)` loop of
`ReMemAgent.run_task`, with the forced-Act epilogue when the loop exhausts.
State threaded: remaining iterations, completed iterations, the bank, the
traces, the last retrieval (list and joined text) and the uuid draw counter.
`persistence.save` is file IO with no effect on the record or the bank. -/
def ReMemAgent.run_task_loop (env : PyEnv) (llm : LLM) (max_iterations : Nat)
    (retrieval_k : Int) (task_input : String) :
    Nat → Nat → MemoryBank → List String → List RetrieveItem → String → Nat →
    Except PyErr (RunResult × MemoryBank)
  | 0, _, M, traces, retrieved_memories, retrieved_text, uc =>
    let result := ReMemAgent._act llm task_input retrieved_text traces
    (match ReMemAgent._add_new_memory env uc M task_input result
        "max_iterations_exceeded" with
    | (_, some e) => .error e
    | ((m1, _), none) =>
      .ok ({ action := result, traces := traces, memory_size := m1.entries.length,
             iterations := max_iterations,
             retrieved_count := retrieved_memories.length,
             status := "max_iterations_exceeded" }, m1))
  | n + 1, iter_done, M, traces, _, _, uc =>
    let retrieved := M.retrieve env.json_loads env.float_parse llm task_input retrieval_k
    match retrievedToText retrieved with
    | .error e => .error e
    | .ok texts =>
      let retrieved_text := pyJoin "\n" texts
      let action := ReMemAgent._select_action llm task_input retrieved_text traces
      let action_lower := pyLower (pyStrip action)
      if action_lower = "think" then
        let result := ReMemAgent._think llm task_input retrieved_text traces
        ReMemAgent.run_task_loop env llm max_iterations retrieval_k task_input
          n (iter_done + 1) M (traces ++ [result]) retrieved retrieved_text uc
      else if action_lower = "refine" then
        let pr := ReMemAgent._refine env.parse_command llm M task_input traces
        let traces2 := traces ++ [pr.2]
        let mu := ReMemAgent._apply_delta env uc M pr.1
        ReMemAgent.run_task_loop env llm max_iterations retrieval_k task_input
          n (iter_done + 1) mu.1 traces2 retrieved retrieved_text mu.2
      else if action_lower = "act" then
        let result := ReMemAgent._act llm task_input retrieved_text traces
        (match ReMemAgent._add_new_memory env uc M task_input result
            (ReMemAgent._get_feedback result) with
        | (_, some e) => .error e
        | ((m1, _), none) =>
          .ok ({ action := result, traces := traces,
                 memory_size := m1.entries.length, iterations := iter_done + 1,
                 retrieved_count := retrieved.length,
                 status := "completed" }, m1))
      else
        let traces2 := traces ++ ["invalid action: " ++ action]
        let result := ReMemAgent._act llm task_input retrieved_text traces2
        (match ReMemAgent._add_new_memory env uc M task_input result "forced" with
        | (_, some e) => .error e
        | ((m1, _), none) =>
          .ok ({ action := result, traces := traces2,
                 memory_size := m1.entries.length, iterations := iter_done + 1,
                 retrieved_count := retrieved.length,
                 status := "forced" }, m1))

/-- `ReMemAgent.run_task`: the full single-task loop, returning the result
record and the final bank (Python mutates `self.M` in place). -/
def ReMemAgent.run_task (env : PyEnv) (a : ReMemAgent) (task_input : String) :
    Except PyErr (RunResult × MemoryBank) :=
  ReMemAgent.run_task_loop env a.llm a.max_iterations a.retrieval_k task_input
    a.max_iterations 0 a.M [] [] "" 0

/-! ## Specification-side definitions and concrete fixtures -/

/-- Position-indexed removal, used to state what `delete` removes: keep the
element at position `n + i` exactly when `i` is not listed in `s`. -/
def keepAux (s : List Nat) : Nat → List MemoryEntry → List MemoryEntry
  | _, [] => []
  | n, e :: rest =>
    if n ∈ s then keepAux s (n + 1) rest else e :: keepAux s (n + 1) rest

/-- A concrete entry with distinct field texts and timestamp `i`. -/
def sampleEntry (i : Nat) : MemoryEntry :=
  { id := "id" ++ Nat.repr i, x := "x" ++ Nat.repr i, y := "y" ++ Nat.repr i,
    feedback := "f" ++ Nat.repr i, tag := "t" ++ Nat.repr i, timestamp := i }

/-- A two-entry bank with default capacity. -/
def bankTwo : MemoryBank :=
  { entries := [sampleEntry 0, sampleEntry 1], max_entries := 1000,
    operation_history := [] }

/-- A three-entry bank with default capacity. -/
def bankThree : MemoryBank :=
  { entries := [sampleEntry 0, sampleEntry 1, sampleEntry 2], max_entries := 1000,
    operation_history := [] }

/-- A bank holding exactly its capacity of 10 entries (timestamps 0..9). -/
def bankTen : MemoryBank :=
  { entries := (List.range 10).map sampleEntry, max_entries := 10,
    operation_history := [] }

/-- An empty bank with default capacity. -/
def emptyBank : MemoryBank :=
  { entries := [], max_entries := 1000, operation_history := [] }

/-- An LLM that answers `"not json"` to every prompt. -/
def llmNotJson : LLM := { call := fun _ => .ok "not json", context_length_tokens := none }

/-- An LLM that answers `"banana"` — an unrecognised action — to every
prompt. -/
def llmBanana : LLM := { call := fun _ => .ok "banana", context_length_tokens := none }

/-- A concrete environment: `json.loads` and `float` fail on everything
(as they do on the inputs these fixtures feed them), the command parser
returns the empty delta, UUID draws are numbered, the clock reads 100. -/
def envSimple : PyEnv :=
  { json_loads := fun _ => none, float_parse := fun _ => none,
    parse_command := fun _ => emptyDelta,
    fresh_id := fun i => "uuid-" ++ Nat.repr i, now_ts := 100 }

/-! ## Shared lemmas -/

theorem insertSorted_perm {α : Type} (le : α → α → Bool) (a : α) (l : List α) :
    List.Perm (insertSorted le a l) (a :: l) := by
  induction l with
  | nil => simp [insertSorted]
  | cons b rest ih =>
    simp only [insertSorted]
    split
    · exact List.Perm.refl _
    · exact ((ih.cons b).trans (List.Perm.swap a b rest))

theorem pySort_perm {α : Type} (le : α → α → Bool) (l : List α) :
    List.Perm (pySort le l) l := by
  induction l with
  | nil => simp [pySort]
  | cons a rest ih =>
    exact (insertSorted_perm le a (pySort le rest)).trans (ih.cons a)

theorem pySort_length {α : Type} (le : α → α → Bool) (l : List α) :
    (pySort le l).length = l.length :=
  (pySort_perm le l).length_eq

theorem insertSorted_pairwise_descNat (a : Nat) (l : List Nat)
    (h : l.Pairwise (fun x y => y ≤ x)) :
    (insertSorted (fun x y => decide (y ≤ x)) a l).Pairwise (fun x y => y ≤ x) := by
  induction l with
  | nil => simp [insertSorted]
  | cons b rest ih =>
    rw [List.pairwise_cons] at h
    obtain ⟨hb, hrest⟩ := h
    simp only [insertSorted]
    by_cases hba : b ≤ a
    · rw [if_pos (by simpa using hba)]
      refine List.pairwise_cons.mpr ⟨?_, List.pairwise_cons.mpr ⟨hb, hrest⟩⟩
      intro x hx
      rcases List.mem_cons.mp hx with rfl | hx2
      · exact hba
      · exact le_trans (hb x hx2) hba
    · rw [if_neg (by simpa using hba)]
      refine List.pairwise_cons.mpr ⟨?_, ih hrest⟩
      intro x hx
      have hmem := (insertSorted_perm (fun x y => decide (y ≤ x)) a rest).mem_iff.mp hx
      rcases List.mem_cons.mp hmem with rfl | hx2
      · omega
      · exact hb x hx2

theorem pySort_pairwise_descNat (l : List Nat) :
    (pySort (fun x y => decide (y ≤ x)) l).Pairwise (fun x y => y ≤ x) := by
  induction l with
  | nil => simp [pySort]
  | cons a rest ih => exact insertSorted_pairwise_descNat a _ ih

theorem keepAux_nil_set (n : Nat) (l : List MemoryEntry) : keepAux [] n l = l := by
  induction l generalizing n with
  | nil => rfl
  | cons e rest ih => simp [keepAux, ih]

theorem keepAux_of_forall_lt (s : List Nat) (n : Nat) (l : List MemoryEntry)
    (h : ∀ i ∈ s, i < n) : keepAux s n l = l := by
  induction l generalizing n with
  | nil => rfl
  | cons e rest ih =>
    have hn : n ∉ s := fun hm => absurd (h n hm) (lt_irrefl n)
    rw [keepAux, if_neg hn, ih (n + 1) (fun i hi => Nat.lt_succ_of_lt (h i hi))]

theorem keepAux_congr (s t : List Nat) (hmem : ∀ i, i ∈ s ↔ i ∈ t) (n : Nat)
    (l : List MemoryEntry) : keepAux s n l = keepAux t n l := by
  induction l generalizing n with
  | nil => rfl
  | cons e rest ih =>
    simp only [keepAux]
    by_cases hns : n ∈ s
    · rw [if_pos hns, if_pos ((hmem n).mp hns), ih]
    · rw [if_neg hns, if_neg (fun h2 => hns ((hmem n).mpr h2)), ih]

theorem keepAux_cons_eraseIdx (l : List MemoryEntry) (n j : Nat) (rest : List Nat)
    (hj : j < l.length) (hrest : ∀ i ∈ rest, i < n + j) :
    keepAux ((n + j) :: rest) n l = keepAux rest n (l.eraseIdx j) := by
  induction l generalizing n j rest with
  | nil => simp at hj
  | cons e tl ih =>
    cases j with
    | zero =>
      rw [List.eraseIdx_cons_zero]
      rw [keepAux, if_pos (by simp)]
      rw [keepAux_of_forall_lt _ _ _ ?h1, keepAux_of_forall_lt _ _ _ ?h2]
      case h1 =>
        intro i hi
        rcases List.mem_cons.mp hi with rfl | hi2
        · omega
        · have := hrest i hi2; omega
      case h2 => intro i hi; have := hrest i hi; omega
    | succ j2 =>
      rw [List.eraseIdx_cons_succ]
      have hnn : ¬ (n = n + (j2 + 1)) := by omega
      by_cases hnr : n ∈ rest
      · rw [keepAux, if_pos (List.mem_cons.mpr (Or.inr hnr))]
        conv_rhs => rw [keepAux, if_pos hnr]
        rw [show n + (j2 + 1) = (n + 1) + j2 by omega]
        exact ih (n + 1) j2 rest (by simpa using hj)
          (fun i hi => by have := hrest i hi; omega)
      · rw [keepAux, if_neg ?hc]
        case hc =>
          intro hmemc
          rcases List.mem_cons.mp hmemc with heq | h2
          · exact hnn heq
          · exact hnr h2
        conv_rhs => rw [keepAux, if_neg hnr]
        rw [show n + (j2 + 1) = (n + 1) + j2 by omega]
        rw [ih (n + 1) j2 rest (by simpa using hj)
          (fun i hi => by have := hrest i hi; omega)]

theorem delRun_eq_keepAux (s : List Nat) : ∀ (l : List MemoryEntry),
    s.Pairwise (fun a b => b < a) → (∀ i ∈ s, i < l.length) →
    delRun l s = (keepAux s 0 l, none) := by
  induction s with
  | nil => intro l _ _; simp [delRun, keepAux_nil_set]
  | cons j rest ih =>
    intro l hp hb
    have hj : j < l.length := hb j (List.mem_cons_self j rest)
    rw [List.pairwise_cons] at hp
    obtain ⟨hjr, hrp⟩ := hp
    rw [delRun, if_pos hj]
    have hb2 : ∀ i ∈ rest, i < (l.eraseIdx j).length := by
      intro i hi
      rw [List.length_eraseIdx, if_pos hj]
      have := hjr i hi; omega
    rw [ih (l.eraseIdx j) hrp hb2]
    have hbridge := keepAux_cons_eraseIdx l 0 j rest hj
      (fun i hi => by have := hjr i hi; omega)
    rw [Nat.zero_add] at hbridge
    rw [hbridge]

theorem collectDelete_all_valid (entries : List MemoryEntry) (indices : List Int)
    (h : ∀ idx ∈ indices, 0 ≤ idx ∧ idx < (entries.length : Int)) :
    ∃ ds, collectDelete entries indices = .ok (indices.map Int.toNat, ds) := by
  induction indices with
  | nil => exact ⟨[], rfl⟩
  | cons a rest ih =>
    have ha := h a (List.mem_cons_self a rest)
    obtain ⟨ds, hds⟩ := ih (fun i hi => h i (List.mem_cons_of_mem a hi))
    have hlt : a.toNat < entries.length := by omega
    cases hE : entries[a.toNat]? with
    | none =>
      rw [List.getElem?_eq_none_iff] at hE
      omega
    | some e =>
      refine ⟨e :: ds, ?_⟩
      rw [collectDelete, if_pos ha, hE, hds]
      rfl

theorem collectDelete_has_invalid (entries : List MemoryEntry) (indices : List Int)
    (h : ∃ idx ∈ indices, ¬ (0 ≤ idx ∧ idx < (entries.length : Int))) :
    collectDelete entries indices = .error .indexError := by
  induction indices with
  | nil => obtain ⟨idx, hmem, _⟩ := h; simp at hmem
  | cons a rest ih =>
    by_cases hv : 0 ≤ a ∧ a < (entries.length : Int)
    · have hrest : ∃ idx ∈ rest, ¬ (0 ≤ idx ∧ idx < (entries.length : Int)) := by
        obtain ⟨idx, hmem, hinv⟩ := h
        rcases List.mem_cons.mp hmem with rfl | hmem2
        · exact absurd hv hinv
        · exact ⟨idx, hmem2, hinv⟩
      have hlt : a.toNat < entries.length := by omega
      cases hE : entries[a.toNat]? with
      | none => rw [List.getElem?_eq_none_iff] at hE; omega
      | some e => rw [collectDelete, if_pos hv, hE, ih hrest]; rfl
    · rw [collectDelete, if_neg hv]

theorem parseFencedJson_const_none (s : String) :
    parseFencedJson (fun _ => none) s = none := by
  unfold parseFencedJson
  cases charsFind s.data "```json".data with
  | none => rfl
  | some start => dsimp only; split <;> rfl

theorem parseBraceSpan_const_none (s : String) :
    parseBraceSpan (fun _ => none) s = none := by
  unfold parseBraceSpan
  dsimp only
  split <;> rfl

theorem parseNormalized_const_none (s : String) :
    parseNormalized (fun _ => none) s = none := rfl

theorem parseResultsArray_const_none (s : String) :
    parseResultsArray (fun _ => none) s = none := by
  unfold parseResultsArray
  dsimp only
  split
  · split
    · split <;> rfl
    · rfl
  · rfl

theorem parse_json_response_const_none (s : String) :
    parse_json_response (fun _ => none) s = none := by
  unfold parse_json_response
  rw [parseFencedJson_const_none, parseBraceSpan_const_none,
    parseNormalized_const_none, parseResultsArray_const_none]
  split <;> rfl

theorem retrieveTry_unparseable (b : MemoryBank)
    (json_loads : String → Option PyVal) (float_parse : String → Option Rat)
    (llm : LLM) (query : String) (k : Nat) (incl : Bool)
    (hllm : ∀ p r, llm.call p = .ok r → parse_json_response json_loads r = none) :
    b.retrieveTry json_loads float_parse llm query k incl =
        .ok (b._fallback_retrieval query k incl) ∨
      ∃ e, b.retrieveTry json_loads float_parse llm query k incl = .error e := by
  unfold MemoryBank.retrieveTry
  cases hc : llm.call (retrieve_prompt_trimmed llm b.entries query k) with
  | error e => exact Or.inr ⟨e, rfl⟩
  | ok r =>
    left
    dsimp only
    unfold MemoryBank.retrieveEval
    rw [hllm _ r hc]

theorem retrieve_fallback_of_unparseable (b : MemoryBank)
    (json_loads : String → Option PyVal) (float_parse : String → Option Rat)
    (llm : LLM) (query : String) (k : Int)
    (hne : b.entries ≠ []) (hk : 1 ≤ k)
    (hllm : ∀ p r, llm.call p = .ok r → parse_json_response json_loads r = none) :
    b.retrieve json_loads float_parse llm query k true =
      b._fallback_retrieval query (min k.toNat b.entries.length) true := by
  unfold MemoryBank.retrieve
  rw [if_neg ?hne2, if_neg ?hk2]
  case hne2 => simpa [List.isEmpty_iff] using hne
  case hk2 => omega
  dsimp only
  rcases retrieveTry_unparseable b json_loads float_parse llm query
      (min k.toNat b.entries.length) true hllm with h | ⟨e, h⟩ <;> rw [h]

/-! ## The claims -/

/-- C10: `delete([])` with the empty index list returns normally without
raising, leaves the entries list exactly unchanged, and appends no record to
the operation history — the whole bank state is returned untouched, so the
empty-list call is a complete no-op. -/
theorem C10_delete_empty_noop (b : MemoryBank) : b.delete [] = (b, none) := by
  simp [MemoryBank.delete]

/-- C9: constructing a `MemoryEntry` with `id = ""` does not raise: the empty
(falsy) value is replaced by the freshly generated UUID string, so the
constructed entry carries the non-empty UUID as its id — even though
assigning an empty id through the property setter raises `ValueError`. -/
theorem C9_empty_id_replaced (x y f t : String) (ts : Nat) (fresh : String)
    (hf : pyStrip fresh ≠ "") :
    MemoryEntry.init x y f t ts (some "") fresh =
      .ok { id := fresh, x := x, y := y, feedback := f, tag := t, timestamp := ts } ∧
    fresh ≠ "" ∧
    MemoryEntry.id_setter "" = .error .valueError := by
  refine ⟨?_, ?_, rfl⟩
  · unfold MemoryEntry.init MemoryEntry.id_setter
    dsimp only
    rw [if_pos rfl, if_neg hf]
    rfl
  · intro h
    apply hf
    rw [h]
    rfl

/-- C9 witness: a concrete construction with `id = ""`. -/
theorem C9_witness :
    (MemoryEntry.init "x" "y" "f" "t" 5 (some "") "uuid-1" =
      .ok { id := "uuid-1", x := "x", y := "y", feedback := "f", tag := "t",
            timestamp := 5 }) ∧
    "uuid-1" ≠ "" ∧
    MemoryEntry.id_setter "" = .error .valueError :=
  C9_empty_id_replaced "x" "y" "f" "t" 5 "uuid-1" (by decide)

/-- C5: the claim fails on the code whenever `idx2 < idx1`.  `merge(1, 0)` on
a two-entry bank raises `IndexError` (after already overwriting position 1
with the merged entry), because the source deletes `entries[idx1 + 1]`
instead of `entries[idx2]`; and `merge(1, 0)` on a three-entry bank returns
normally but removes the entry at position 2 while the entry at position
`idx2 = 0` — the one the docstring says is deleted — survives. -/
theorem C5_merge_wrong_deletion :
    ((bankTwo.merge 1 0 "m-id").2 = some .indexError ∧
     (bankTwo.merge 1 0 "m-id").1.entries =
       [sampleEntry 0,
        { id := "m-id", x := "x1\n---\nx0", y := "y1\n---\ny0",
          feedback := "f1; f0", tag := "merged(t1,t0)", timestamp := 1 }]) ∧
    ((bankThree.merge 1 0 "m-id").2 = none ∧
     (bankThree.merge 1 0 "m-id").1.entries =
       [sampleEntry 0,
        { id := "m-id", x := "x1\n---\nx0", y := "y1\n---\ny0",
          feedback := "f1; f0", tag := "merged(t1,t0)", timestamp := 1 }]) := by
  decide

/-- C1 counterexample: adding one entry past capacity to a 10-capacity bank
with 10 existing entries leaves exactly 10 entries — not the 9 the claim
(`max(1, round(10*0.2)) = 2` removed) predicts. -/
theorem C1_counterexample :
    (bankTen.add (sampleEntry 10)).1.entries.length = 10 ∧
    ¬ ((bankTen.add (sampleEntry 10)).1.entries.length = 9) := by
  decide

/-- C1 (amended): an `add` to a bank holding exactly `max_entries ≥ 1`
entries removes exactly the single oldest entry (by timestamp; the bank is
left sorted by the in-place sort) before appending, leaving exactly
`max_entries` entries — so `len(entries) ≤ max_entries` is preserved, but by
a one-entry pop, not by pruning the oldest 20%. -/
theorem C1_add_at_capacity (b : MemoryBank) (e : MemoryEntry)
    (hlen : b.entries.length = b.max_entries) (hpos : 0 < b.max_entries) :
    (b.add e).2 = none ∧
    (b.add e).1.entries = (pySort tsLe b.entries).drop 1 ++ [e] ∧
    (b.add e).1.entries.length = b.max_entries := by
  have hge : b.entries.length ≥ b.max_entries := le_of_eq hlen.symm
  have hlenS : (pySort tsLe b.entries).length = b.entries.length := pySort_length _ _
  unfold MemoryBank.add
  rw [if_pos hge]
  cases hs : pySort tsLe b.entries with
  | nil => rw [hs] at hlenS; simp at hlenS; omega
  | cons d rest =>
    rw [hs] at hlenS
    simp only [MemoryBank._record_operation, List.drop_succ_cons, List.drop_zero]
    refine ⟨trivial, trivial, ?_⟩
    simp only [List.length_append, List.length_cons, List.length_nil] at hlenS ⊢
    omega

/-- C1 witness: the amended statement at the concrete 10-capacity bank. -/
theorem C1_witness :
    (bankTen.add (sampleEntry 10)).2 = none ∧
    (bankTen.add (sampleEntry 10)).1.entries =
      (pySort tsLe bankTen.entries).drop 1 ++ [sampleEntry 10] ∧
    (bankTen.add (sampleEntry 10)).1.entries.length = bankTen.max_entries :=
  C1_add_at_capacity bankTen (sampleEntry 10) (by decide) (by decide)

/-- C8: with exponential backoff, `base_delay = 1` and jitter disabled,
`calculate_delay` yields `1, 2, 4` (each capped at `max_delay`) for attempts
1, 2, 3; and `should_retry` refuses whenever `attempt >= max_retries`
regardless of the exception, and refuses any exception carrying a
`status_code` in `[400, 500)`. -/
theorem C8_retry_manager (m : RetryManager) (rd jf : Rat)
    (hstrat : m.config.strategy = .exponential_backoff)
    (hbase : m.config.base_delay = 1)
    (hjit : m.config.jitter = false) :
    m.calculate_delay 1 rd jf = min 1 m.config.max_delay ∧
    m.calculate_delay 2 rd jf = min 2 m.config.max_delay ∧
    m.calculate_delay 3 rd jf = min 4 m.config.max_delay ∧
    (∀ (e : PyExc) (attempt : Int), m.config.max_retries ≤ attempt →
      m.should_retry e attempt = false) ∧
    (∀ (e : PyExc) (attempt c : Int), e.status_code = some c → 400 ≤ c →
      c < 500 → m.should_retry e attempt = false) := by
  refine ⟨?_, ?_, ?_, ?_, ?_⟩
  · unfold RetryManager.calculate_delay
    rw [if_neg (by omega : ¬ (1 : Int) ≤ 0), hstrat, hbase, hjit]
    dsimp only
    rw [if_neg (by simp)]
    norm_num [min_assoc]
  · unfold RetryManager.calculate_delay
    rw [if_neg (by omega : ¬ (2 : Int) ≤ 0), hstrat, hbase, hjit]
    dsimp only
    rw [if_neg (by simp)]
    norm_num [min_assoc]
  · unfold RetryManager.calculate_delay
    rw [if_neg (by omega : ¬ (3 : Int) ≤ 0), hstrat, hbase, hjit]
    dsimp only
    rw [if_neg (by simp)]
    norm_num [min_assoc]
    rw [show Int.toNat 2 = 2 from rfl]
    norm_num
  · intro e attempt h
    unfold RetryManager.should_retry
    rw [if_pos (by omega : attempt ≥ m.config.max_retries)]
  · intro e attempt c hsc h4 h5
    unfold RetryManager.should_retry
    by_cases hA : attempt ≥ m.config.max_retries
    · rw [if_pos hA]
    · rw [if_neg hA]
      by_cases hE : m.config.retry_on_exceptions e.kind = true
      · rw [if_neg (by simp [hE]), hsc]
        dsimp only
        rw [if_pos ⟨by omega, h4, h5⟩]
      · rw [if_pos (by simp [hE])]

/-- C8 witness: the default configuration with jitter disabled, concrete
attempts and a concrete 404-carrying exception. -/
theorem C8_witness :
    ({ config := { jitter := false } } : RetryManager).calculate_delay 1 (3/2) (11/10) =
      min 1 30 ∧
    ({ config := { jitter := false } } : RetryManager).calculate_delay 2 (3/2) (11/10) =
      min 2 30 ∧
    ({ config := { jitter := false } } : RetryManager).calculate_delay 3 (3/2) (11/10) =
      min 4 30 ∧
    (∀ (e : PyExc) (attempt : Int), (3 : Int) ≤ attempt →
      ({ config := { jitter := false } } : RetryManager).should_retry e attempt = false) ∧
    (∀ (e : PyExc) (attempt c : Int), e.status_code = some c → 400 ≤ c →
      c < 500 →
      ({ config := { jitter := false } } : RetryManager).should_retry e attempt = false) :=
  C8_retry_manager { config := { jitter := false } } (3/2) (11/10) rfl rfl rfl

theorem fallback_head (b : MemoryBank) (q : String) (k1 : Nat)
    (hne : b.entries ≠ []) (hk1 : 0 < k1) :
    ∃ r rest, b._fallback_retrieval q k1 true = RetrieveItem.result r :: rest := by
  unfold MemoryBank._fallback_retrieval
  dsimp only
  cases hE : b.entries with
  | nil => exact absurd hE hne
  | cons e0 es =>
    rw [show min k1 (e0 :: es).length = (min (k1 - 1) es.length) + 1 from by
      simp only [List.length_cons]; omega]
    rw [List.take_succ_cons, List.map_cons]
    exact ⟨_, _, rfl⟩

/-- C4: for a non-empty bank and `k ≥ 1`, whenever the LLM call raises or
returns text on which every JSON-extraction strategy fails (e.g. the literal
`"not json"`), `retrieve` returns — without raising, which its type already
enforces — exactly `min k len` results in storage order starting from the
first entry, each carrying `relevance_score = 0.5` and the fixed fallback
explanation text. -/
theorem C4_retrieve_fallback (b : MemoryBank) (json_loads : String → Option PyVal)
    (float_parse : String → Option Rat) (llm : LLM) (query : String) (k : Int)
    (hne : b.entries ≠ []) (hk : 1 ≤ k)
    (hllm : ∀ p r, llm.call p = .ok r → parse_json_response json_loads r = none) :
    b.retrieve json_loads float_parse llm query k true =
      (b.entries.take (min k.toNat b.entries.length)).map
        (fun e => RetrieveItem.result
          { memory_entry := e, relevance_score := 1/2,
            explanation := .pyStr "回退检索：按时间顺序返回" }) ∧
    (b.retrieve json_loads float_parse llm query k true).length =
      min k.toNat b.entries.length := by
  have hfb := retrieve_fallback_of_unparseable b json_loads float_parse llm query k
    hne hk hllm
  rw [hfb]
  unfold MemoryBank._fallback_retrieval
  dsimp only
  rw [show min (min k.toNat b.entries.length) b.entries.length =
      min k.toNat b.entries.length from by omega]
  constructor
  · refine List.map_congr_left ?_
    intro e _
    have hfalse : pyFalsy (.pyStr "回退检索：按时间顺序返回") = false := rfl
    simp only [RetrievalResult.init, hfalse, Bool.false_eq_true, if_false, if_true]
    norm_num
  · simp only [List.length_map, List.length_take]
    omega

/-- C4 witness: a two-entry bank, `k = 1`, and an LLM answering
`"not json"`. -/
theorem C4_witness :
    bankTwo.retrieve (fun _ => none) (fun _ => none) llmNotJson "q" 1 true =
      (bankTwo.entries.take (min (Int.toNat 1) bankTwo.entries.length)).map
        (fun e => RetrieveItem.result
          { memory_entry := e, relevance_score := 1/2,
            explanation := .pyStr "回退检索：按时间顺序返回" }) ∧
    (bankTwo.retrieve (fun _ => none) (fun _ => none) llmNotJson "q" 1 true).length =
      min (Int.toNat 1) bankTwo.entries.length :=
  C4_retrieve_fallback bankTwo (fun _ => none) (fun _ => none) llmNotJson "q" 1
    (by decide) (by decide)
    (fun p r h => by
      have h3 : (Except.ok "not json" : Except PyErr String) = Except.ok r := h
      injection h3 with h2
      rw [← h2]
      exact parse_json_response_const_none "not json")

/-- C3: the claim is what the code intends (the agent layer as an exception
firewall, and its own tests run `run_task` over a non-empty bank), but the
code is wrong: `run_task` maps `to_text()` over the retrieval results, and
`RetrievalResult` defines no `to_text`, so with any non-empty bank (here:
under the fallback-retrieval hypotheses) the first iteration raises
`AttributeError` out of `run_task`. -/
theorem C3_run_task_raises (env : PyEnv) (llm : LLM) (M : MemoryBank)
    (maxIter : Nat) (k : Int) (task : String)
    (hne : M.entries ≠ []) (hIter : 0 < maxIter) (hk : 1 ≤ k)
    (hllm : ∀ p r, llm.call p = .ok r → parse_json_response env.json_loads r = none) :
    ReMemAgent.run_task env
      { llm := llm, M := M, max_iterations := maxIter, retrieval_k := k } task =
      .error .attributeError := by
  unfold ReMemAgent.run_task
  dsimp only
  cases maxIter with
  | zero => omega
  | succ n =>
    unfold ReMemAgent.run_task_loop
    have hret := retrieve_fallback_of_unparseable M env.json_loads env.float_parse
      llm task k hne hk hllm
    rw [hret]
    have hk1 : 0 < min k.toNat M.entries.length := by
      have : 0 < M.entries.length := List.length_pos.mpr hne
      omega
    obtain ⟨r, rest, hfb⟩ :=
      fallback_head M task (min k.toNat M.entries.length) hne hk1
    rw [hfb]
    rfl

/-- C3 witness: a concrete two-entry bank and the `"not json"` LLM. -/
theorem C3_witness :
    ReMemAgent.run_task envSimple
      { llm := llmNotJson, M := bankTwo, max_iterations := 8, retrieval_k := 5 }
      "task" = .error .attributeError :=
  C3_run_task_raises envSimple llmNotJson bankTwo 8 5 "task" (by decide) (by decide)
    (by decide)
    (fun p r h => by
      have h3 : (Except.ok "not json" : Except PyErr String) = Except.ok r := h
      injection h3 with h2
      rw [← h2]
      exact parse_json_response_const_none "not json")

/-- C2 counterexample: with an empty bank (retrieval never touches the LLM)
and a mock LLM answering the unrecognised string `"banana"` to everything,
`run_task` finishes its first iteration with status `"completed"` and an
empty trace list — not status `"forced"`, and no `"invalid action"` trace —
because `_select_action` already coerced the response to `"act"`. -/
theorem C2_counterexample :
    ∃ r m, ReMemAgent.run_task envSimple { llm := llmBanana, M := emptyBank }
        "demo task" = .ok (r, m) ∧
      r.status = "completed" ∧ r.status ≠ "forced" ∧ r.traces = [] ∧
      r.iterations = 1 :=
  ⟨_, _, rfl, rfl, by decide, rfl, rfl⟩

/-- C2 (amended): for every agent with an empty memory bank (and positive
capacity) whose LLM answers the action-selection prompt of the first
iteration with a string that is not `think`/`refine`/`act` (after
strip/lower), `run_task` returns after that first iteration with status
`"completed"` and an empty traces list: the unrecognised response is coerced
to `"act"` inside `_select_action`, so the `"forced"`/`"invalid action"`
branch of `run_task` is never reached. -/
theorem C2_unrecognized_action_completed (env : PyEnv) (llm : LLM) (M : MemoryBank)
    (maxIter : Nat) (k : Int) (task : String) (resp : String)
    (hM : M.entries = []) (hmax : 0 < M.max_entries) (hIter : 0 < maxIter)
    (hresp : llm.call (select_action_prompt task "" []) = .ok resp)
    (hbad : pyLower (pyStrip resp) ≠ "think" ∧ pyLower (pyStrip resp) ≠ "refine" ∧
            pyLower (pyStrip resp) ≠ "act") :
    ∃ r m, ReMemAgent.run_task env
        { llm := llm, M := M, max_iterations := maxIter, retrieval_k := k } task =
        .ok (r, m) ∧
      r.status = "completed" ∧ r.iterations = 1 ∧ r.traces = [] := by
  unfold ReMemAgent.run_task
  dsimp only
  cases maxIter with
  | zero => omega
  | succ n =>
    unfold ReMemAgent.run_task_loop
    have hret : M.retrieve env.json_loads env.float_parse llm task k = [] := by
      unfold MemoryBank.retrieve
      rw [if_pos (by simp [hM])]
    rw [hret]
    simp only [retrievedToText]
    rw [show pyJoin "\n" ([] : List String) = "" from rfl]
    have hsel : ReMemAgent._select_action llm task "" [] = "act" := by
      unfold ReMemAgent._select_action
      rw [hresp]
      dsimp only
      rw [if_neg (by simp [hbad.1, hbad.2.1, hbad.2.2])]
    rw [hsel]
    rw [show pyLower (pyStrip "act") = "act" from rfl]
    rw [if_neg (by decide : ¬ ("act" = "think")),
      if_neg (by decide : ¬ ("act" = "refine")), if_pos rfl]
    unfold ReMemAgent._add_new_memory
    dsimp only
    unfold MemoryBank.add
    rw [if_neg (by simp [hM]; omega)]
    dsimp only [MemoryBank._record_operation]
    exact ⟨_, _, rfl, rfl, rfl, rfl⟩

/-- C2 witness: the amended statement at the concrete empty-bank agent with
the `"banana"` LLM. -/
theorem C2_witness :
    ∃ r m, ReMemAgent.run_task envSimple
        { llm := llmBanana, M := emptyBank, max_iterations := 8, retrieval_k := 5 }
        "demo task" = .ok (r, m) ∧
      r.status = "completed" ∧ r.iterations = 1 ∧ r.traces = [] :=
  C2_unrecognized_action_completed envSimple llmBanana emptyBank 8 5 "demo task"
    "banana" rfl (by decide) (by decide) rfl (by decide)

/-- C6 counterexample: on a two-entry bank every element of `[1, 1]` is a
valid index, yet `delete([1, 1])` raises `IndexError` from the mutation loop
after already removing one entry, and appends no history record — the
duplicate-free reading of "exactly those entries are removed" and the
all-or-nothing guarantee both fail for duplicated indices. -/
theorem C6_counterexample :
    (bankTwo.delete [1, 1]).2 = some .indexError ∧
    (bankTwo.delete [1, 1]).1.entries = [sampleEntry 0] ∧
    (bankTwo.delete [1, 1]).1.operation_history = [] ∧
    (∀ idx ∈ [(1 : Int), 1], 0 ≤ idx ∧ idx < (bankTwo.entries.length : Int)) := by
  decide

/-- C6 (amended): `delete(indices)` validates every index before any
mutation — if some element is out of `[0, len)` the call raises `IndexError`
with the bank exactly unchanged; and when the indices are all valid **and
pairwise distinct**, exactly the entries at those positions are removed
(descending-index removal) and a single `delete` history record is appended
(assuming the 1000-record history cap has not been reached).  With duplicate
valid indices the descending loop itself can raise after partial deletion
(see the counterexample). -/
theorem C6_delete_validation (b : MemoryBank) (indices : List Int) :
    ((∃ idx ∈ indices, ¬ (0 ≤ idx ∧ idx < (b.entries.length : Int))) →
      b.delete indices = (b, some .indexError)) ∧
    (indices ≠ [] →
      (∀ idx ∈ indices, 0 ≤ idx ∧ idx < (b.entries.length : Int)) →
      (indices.map Int.toNat).Nodup →
      b.operation_history.length < 1000 →
      (b.delete indices).2 = none ∧
      (b.delete indices).1.entries = keepAux (indices.map Int.toNat) 0 b.entries ∧
      (∃ rec0, (b.delete indices).1.operation_history =
          b.operation_history ++ [rec0] ∧ rec0.operation_type = "delete") ∧
      (b.delete indices).1.max_entries = b.max_entries) := by
  constructor
  · intro h
    have hne : indices ≠ [] := by
      obtain ⟨idx, hmem, _⟩ := h
      intro hnil
      rw [hnil] at hmem
      simp at hmem
    unfold MemoryBank.delete
    rw [if_neg hne, collectDelete_has_invalid b.entries indices h]
  · intro hne hall hnd hh
    obtain ⟨ds, hcd⟩ := collectDelete_all_valid b.entries indices hall
    have hvne : indices.map Int.toNat ≠ [] := by
      intro h0
      exact hne (List.map_eq_nil_iff.mp h0)
    have hperm := pySort_perm (fun a b2 => decide (b2 ≤ a)) (indices.map Int.toNat)
    have hmemiff : ∀ i, i ∈ pySort (fun a b2 => decide (b2 ≤ a)) (indices.map Int.toNat)
        ↔ i ∈ indices.map Int.toNat := fun i => hperm.mem_iff
    have hnd2 : (pySort (fun a b2 => decide (b2 ≤ a)) (indices.map Int.toNat)).Nodup :=
      (hperm.nodup_iff).mpr hnd
    have hge := pySort_pairwise_descNat (indices.map Int.toNat)
    have hgt : (pySort (fun a b2 => decide (b2 ≤ a)) (indices.map Int.toNat)).Pairwise
        (fun x y => y < x) :=
      (hge.and hnd2).imp (fun h => lt_of_le_of_ne h.1 (Ne.symm h.2))
    have hbound : ∀ i ∈ pySort (fun a b2 => decide (b2 ≤ a)) (indices.map Int.toNat),
        i < b.entries.length := by
      intro i hi
      have hiv := (hmemiff i).mp hi
      obtain ⟨idx, hidx, rfl⟩ := List.mem_map.mp hiv
      have := hall idx hidx
      omega
    have hdel := delRun_eq_keepAux _ b.entries hgt hbound
    unfold MemoryBank.delete
    rw [if_neg hne, hcd]
    dsimp only
    rw [if_neg hvne, hdel]
    dsimp only
    refine ⟨rfl, ?_, ?_, rfl⟩
    · simp only [MemoryBank._record_operation]
      exact keepAux_congr _ _ hmemiff 0 b.entries
    · simp only [MemoryBank._record_operation]
      rw [if_neg (by omega)]
      exact ⟨_, rfl, rfl⟩

/-- C6 witness: an out-of-range index on a two-entry bank (raise, no
mutation) and a distinct valid pair (clean removal with one record). -/
theorem C6_witness :
    bankTwo.delete [5] = (bankTwo, some .indexError) ∧
    ((bankTwo.delete [0, 1]).2 = none ∧
     (bankTwo.delete [0, 1]).1.entries =
       keepAux ([(0 : Int), 1].map Int.toNat) 0 bankTwo.entries ∧
     (∃ rec0, (bankTwo.delete [0, 1]).1.operation_history =
        bankTwo.operation_history ++ [rec0] ∧ rec0.operation_type = "delete") ∧
     (bankTwo.delete [0, 1]).1.max_entries = bankTwo.max_entries) :=
  ⟨(C6_delete_validation bankTwo [5]).1 (by decide),
   (C6_delete_validation bankTwo [0, 1]).2 (by decide) (by decide) (by decide)
     (by decide)⟩

theorem finishScore_bounds (score dflt : Rat) :
    0 ≤ finishScore score dflt ∧ finishScore score dflt ≤ 1 ∧
    ∃ z : Int, finishScore score dflt = (z : Rat) / 100 := by
  have body : ∀ s : Rat,
      0 ≤ (if pyRound2 s < 0 then (0:Rat) else if 1 < pyRound2 s then 1 else pyRound2 s) ∧
      (if pyRound2 s < 0 then (0:Rat) else if 1 < pyRound2 s then 1 else pyRound2 s) ≤ 1 ∧
      ∃ z : Int,
        (if pyRound2 s < 0 then (0:Rat) else if 1 < pyRound2 s then 1 else pyRound2 s) =
          (z : Rat) / 100 := by
    intro s
    by_cases h2 : pyRound2 s < 0
    · rw [if_pos h2]
      exact ⟨le_refl 0, by norm_num, 0, by norm_num⟩
    · rw [if_neg h2]
      by_cases h3 : 1 < pyRound2 s
      · rw [if_pos h3]
        exact ⟨by norm_num, le_refl 1, 100, by norm_num⟩
      · rw [if_neg h3]
        exact ⟨le_of_not_lt h2, le_of_not_lt h3, roundHalfEven (s * 100), rfl⟩
  unfold finishScore
  by_cases h1 : 0 ≤ score ∧ score ≤ 1
  · rw [if_pos h1]
    exact body score
  · rw [if_neg h1]
    by_cases h2 : score < 0
    · rw [if_pos h2]
      exact body 0
    · rw [if_neg h2]
      by_cases h3 : 1 < score
      · rw [if_pos h3]
        exact body 1
      · exact absurd ⟨le_of_not_lt h2, le_of_not_lt h3⟩ h1

/-- C7 counterexample: with the key absent and the out-of-range default
`2.0`, `_validate_and_parse_score` returns `0.5` — neither "exactly the
supplied default" (`2.0`) nor the default "clamped into [0,1]" (`1.0`): an
out-of-range default is *replaced by 0.5*, not clamped. -/
theorem C7_counterexample :
    _validate_and_parse_score (fun _ => none) (.pyDict []) "relevance_score" 2 =
      .ok (1/2) ∧
    ((1 : Rat)/2 ≠ 1) ∧ ((1 : Rat)/2 ≠ 2) := by
  refine ⟨?_, by norm_num, by norm_num⟩
  unfold _validate_and_parse_score
  dsimp only
  rw [if_neg (by decide : ¬ (pyStrip "relevance_score" = ""))]
  rw [show dictGet [] "relevance_score" = none from rfl]
  rw [show vps_default 2 = 1/2 from by unfold vps_default; rw [if_neg (by norm_num)]]
  rw [show pyRound2 (1/2 : Rat) = 1/2 from by
    unfold pyRound2 roundHalfEven
    norm_num]

/-- C7 (amended): for every item dictionary and non-blank key, a numeric
(`float` or `int`) value yields a score in `[0.00, 1.00]` that is a whole
number of hundredths (out-of-range numerics are clamped to `0.0`/`1.0`
before rounding); an absent key, a `None` value, a blank string, or a string
`float` cannot parse yields exactly `round(d, 2)` where `d` is the supplied
default *after* validation — a default outside `[0,1]` is replaced by `0.5`
(not clamped) — so the returned default also lies in `[0,1]`. -/
theorem C7_score_validation (fp : String → Option Rat) (kvs : List (String × PyVal))
    (key : String) (default : Rat) (hkey : pyStrip key ≠ "") :
    (∀ q, dictGet kvs key = some (.pyFloat q) →
      ∃ r, _validate_and_parse_score fp (.pyDict kvs) key default = .ok r ∧
        0 ≤ r ∧ r ≤ 1 ∧ ∃ z : Int, r = (z : Rat) / 100) ∧
    (∀ n : Int, dictGet kvs key = some (.pyInt n) →
      ∃ r, _validate_and_parse_score fp (.pyDict kvs) key default = .ok r ∧
        0 ≤ r ∧ r ≤ 1 ∧ ∃ z : Int, r = (z : Rat) / 100) ∧
    (dictGet kvs key = none →
      _validate_and_parse_score fp (.pyDict kvs) key default =
        .ok (pyRound2 (vps_default default))) ∧
    (dictGet kvs key = some .pyNone →
      _validate_and_parse_score fp (.pyDict kvs) key default =
        .ok (pyRound2 (vps_default default))) ∧
    (∀ s, dictGet kvs key = some (.pyStr s) → pyStrip s = "" →
      _validate_and_parse_score fp (.pyDict kvs) key default =
        .ok (pyRound2 (vps_default default))) ∧
    (∀ s, dictGet kvs key = some (.pyStr s) → pyStrip s ≠ "" →
      fp (pyStrip s) = none →
      _validate_and_parse_score fp (.pyDict kvs) key default =
        .ok (pyRound2 (vps_default default))) ∧
    (0 ≤ vps_default default ∧ vps_default default ≤ 1) := by
  have hbody : ∀ v, dictGet kvs key = v →
      _validate_and_parse_score fp (.pyDict kvs) key default =
        (match v with
          | none => .ok (pyRound2 (vps_default default))
          | some .pyNone => .ok (pyRound2 (vps_default default))
          | some (.pyStr s) =>
            if pyStrip s = "" then .ok (pyRound2 (vps_default default))
            else
              match fp (pyStrip s) with
              | none => .ok (pyRound2 (vps_default default))
              | some q => .ok (finishScore q (vps_default default))
          | some (.pyInt n) => .ok (finishScore (n : Rat) (vps_default default))
          | some (.pyFloat q) => .ok (finishScore q (vps_default default))
          | some _ => .ok (pyRound2 (vps_default default))) := by
    intro v hv
    unfold _validate_and_parse_score
    dsimp only
    rw [if_neg hkey, hv]
  refine ⟨?_, ?_, ?_, ?_, ?_, ?_, ?_⟩
  · intro q hq
    rw [hbody _ hq]
    obtain ⟨ha, hb, z, hz⟩ := finishScore_bounds q (vps_default default)
    exact ⟨_, rfl, ha, hb, z, hz⟩
  · intro n hn
    rw [hbody _ hn]
    obtain ⟨ha, hb, z, hz⟩ := finishScore_bounds (n : Rat) (vps_default default)
    exact ⟨_, rfl, ha, hb, z, hz⟩
  · intro h
    rw [hbody _ h]
  · intro h
    rw [hbody _ h]
  · intro s hs hblank
    rw [hbody _ hs]
    dsimp only
    rw [if_pos hblank]
  · intro s hs hblank hfp
    rw [hbody _ hs]
    dsimp only
    rw [if_neg hblank, hfp]
  · unfold vps_default
    by_cases h : 0 ≤ default ∧ default ≤ 1
    · rw [if_pos h]
      exact h
    · rw [if_neg h]
      norm_num

/-- C7 witness: a concrete item carrying `relevance_score = 0.7`, key
`"relevance_score"`, default `0.5`. -/
theorem C7_witness :
    (∀ q, dictGet [("relevance_score", PyVal.pyFloat (7/10))] "relevance_score" =
        some (.pyFloat q) →
      ∃ r, _validate_and_parse_score (fun _ => none)
          (.pyDict [("relevance_score", PyVal.pyFloat (7/10))]) "relevance_score"
          (1/2) = .ok r ∧
        0 ≤ r ∧ r ≤ 1 ∧ ∃ z : Int, r = (z : Rat) / 100) ∧
    (∀ n : Int, dictGet [("relevance_score", PyVal.pyFloat (7/10))] "relevance_score" =
        some (.pyInt n) →
      ∃ r, _validate_and_parse_score (fun _ => none)
          (.pyDict [("relevance_score", PyVal.pyFloat (7/10))]) "relevance_score"
          (1/2) = .ok r ∧
        0 ≤ r ∧ r ≤ 1 ∧ ∃ z : Int, r = (z : Rat) / 100) ∧
    (dictGet [("relevance_score", PyVal.pyFloat (7/10))] "relevance_score" = none →
      _validate_and_parse_score (fun _ => none)
          (.pyDict [("relevance_score", PyVal.pyFloat (7/10))]) "relevance_score"
          (1/2) = .ok (pyRound2 (vps_default (1/2)))) ∧
    (dictGet [("relevance_score", PyVal.pyFloat (7/10))] "relevance_score" =
        some .pyNone →
      _validate_and_parse_score (fun _ => none)
          (.pyDict [("relevance_score", PyVal.pyFloat (7/10))]) "relevance_score"
          (1/2) = .ok (pyRound2 (vps_default (1/2)))) ∧
    (∀ s, dictGet [("relevance_score", PyVal.pyFloat (7/10))] "relevance_score" =
        some (.pyStr s) → pyStrip s = "" →
      _validate_and_parse_score (fun _ => none)
          (.pyDict [("relevance_score", PyVal.pyFloat (7/10))]) "relevance_score"
          (1/2) = .ok (pyRound2 (vps_default (1/2)))) ∧
    (∀ s, dictGet [("relevance_score", PyVal.pyFloat (7/10))] "relevance_score" =
        some (.pyStr s) → pyStrip s ≠ "" → (fun _ => (none : Option Rat)) (pyStrip s) = none →
      _validate_and_parse_score (fun _ => none)
          (.pyDict [("relevance_score", PyVal.pyFloat (7/10))]) "relevance_score"
          (1/2) = .ok (pyRound2 (vps_default (1/2)))) ∧
    (0 ≤ vps_default (1/2) ∧ vps_default (1/2) ≤ 1) :=
  C7_score_validation (fun _ => none) [("relevance_score", PyVal.pyFloat (7/10))]
    "relevance_score" (1/2) (by decide)
